import Mathlib

/-!
Shallow embedding of the project_mynah conversational orchestration layer:
the conversation data model (src/schemas/context.py), the intent router and
its handlers (src/routes/intent_router.py), the pipeline agents
(src/agents/master.py, nlu.py, data_agent.py, email_agent.py,
response_agent.py), the per-turn orchestration flow
(src/orchestration/flow.py), the session store (src/services/session_store.py)
and the email validator (src/utils/validators.py).

Python floats are modelled as exact rationals (the amounts compared by the
code, such as 250.00 and 300.00, are exactly representable), Python dicts as
association lists, and wall-clock time as an explicit natural-number
parameter passed to every store operation.
-/

namespace Mynah

/-- JSON-like structured values: the representation produced by pydantic
model_dump(mode="json") and stored by the session store. Numbers are
modelled as exact rationals. -/
inductive JVal : Type where
  | jnull : JVal
  | jbool : Bool → JVal
  | jnum : Rat → JVal
  | jstr : String → JVal
  | jarr : List JVal → JVal
  | jobj : List (String × JVal) → JVal
  deriving Repr

open JVal

/-- Python truthiness of a JSON value: None, False, 0, empty string, empty
list and empty dict are falsy. -/
def jTruthy : JVal → Bool
  | jnull => false
  | jbool b => b
  | jnum q => q != 0
  | jstr s => !s.isEmpty
  | jarr l => !l.isEmpty
  | jobj l => !l.isEmpty

/-- Python truthiness of an optional string (None and "" are falsy). -/
def optStrTruthy : Option String → Bool
  | none => false
  | some s => !s.data.isEmpty

/-- Python truthiness of an optional float (None and 0.0 are falsy). -/
def optRatTruthy : Option Rat → Bool
  | none => false
  | some x => x != 0

/-- Whitespace characters recognized by str.strip. -/
def isSpaceChar (ch : Char) : Bool :=
  ch == ' ' || ch == '\t' || ch == '\n' || ch == '\r'

/-- Leading-whitespace removal on a character list. -/
def dropLeadingSpaces : List Char → List Char
  | [] => []
  | ch :: cs => if isSpaceChar ch then dropLeadingSpaces cs else ch :: cs

/-- Python str.strip: remove leading and trailing whitespace. -/
def pyStrip (s : String) : String :=
  ⟨(dropLeadingSpaces (dropLeadingSpaces s.data.reverse).reverse)⟩

/-- Python str.replace(ch, "") for a single-character pattern. -/
def removeChar (ch : Char) (s : String) : String :=
  ⟨s.data.filter (fun x => x != ch)⟩

/-- Python str.lower. -/
def pyLower (s : String) : String :=
  ⟨s.data.map Char.toLower⟩

/-- Split of a character list at every occurrence of a separator. -/
def splitCharList (sep : Char) : List Char → List (List Char)
  | [] => [[]]
  | ch :: cs =>
    let r := splitCharList sep cs
    if ch == sep then [] :: r
    else (ch :: r.headD []) :: r.tail

/-- Python str.split for a single-character separator. -/
def splitOnChar (sep : Char) (s : String) : List String :=
  (splitCharList sep s.data).map (fun l => ⟨l⟩)

/-- Adjacent double dot detection used by the email syntax check. -/
def hasDoubleDot : List Char → Bool
  | [] => false
  | [_] => false
  | a :: b :: cs => (a == '.' && b == '.') || hasDoubleDot (b :: cs)

/-- Entity record extracted by the NLU agent (schemas/context.py,
NLUEntities). The raw field is a free-form JSON dict. -/
structure NLUEntities where
  amount : Option Rat := none
  currency : Option String := none
  frequency : Option String := none
  payment_type : Option String := none
  date : Option String := none
  raw : List (String × JVal) := []
  deriving Repr

/-- Account/matter snapshot as constructed by DataAgent
(src/agents/data_agent.py, the MatterDetails constructor call). The class is
imported from schemas.context, where no such class is defined; the field
list follows the keyword arguments of the constructor call and the class
body kept in a comment in data_agent.py. -/
structure MatterDetails where
  idx : Int := 0
  matter_id : String := ""
  status : String := ""
  outstanding_balance : Rat := 0
  capital_amount : Rat := 0
  minimum_payment : Rat := 0
  last_payment_amount : Rat := 0
  last_payment_date : String := ""
  client_name : String := ""
  debtor_name : String := ""
  active_plan : Bool := false
  payment_method : String := ""
  deriving Repr

/-- Book rules module of an Excalibur account (schemas/context.py). -/
structure BookRulesModule where
  global_minimum_installment : Rat
  max_term_months : Int
  settlement_approval_threshold : Rat
  deriving Repr

/-- One payment history entry (schemas/context.py). -/
structure PaymentHistoryEntity where
  amount : Rat
  date : String
  status : String
  deriving Repr

/-- Payment history module (schemas/context.py). -/
structure PaymentHistoryModule where
  has_broken_arrangements : Bool
  last_arrangement_status : Option String := none
  recent_payments : List PaymentHistoryEntity := []
  deriving Repr

/-- CRM account snapshot (schemas/context.py, ExcaliburContext). -/
structure ExcaliburContext where
  account_id : String
  balance : Rat
  currency : String
  status : String
  book_rules : BookRulesModule
  payment_history : PaymentHistoryModule
  deriving Repr

/-- Arrangement reasoning result (schemas/context.py). -/
structure ArrangementReasoning where
  meets_minimum_installment : Bool
  proposed_installment_amount : Option Rat := none
  term_months : Option Int := none
  requires_human_review : Bool
  reason : Option String := none
  deriving Repr

/-- Settlement reasoning result (schemas/context.py). -/
structure SettlementReasoning where
  proposed_settlement_amount : Option Rat := none
  discount_ratio : Option Rat := none
  above_approval_threshold : Bool
  requires_manager_approval : Bool
  reason : Option String := none
  deriving Repr

/-- Reasoning result attached to the context (schemas/context.py). -/
structure ReasoningResult where
  arrangement : Option ArrangementReasoning := none
  settlement : Option SettlementReasoning := none
  summary : Option String := none
  deriving Repr

/-- Closed intent enumeration (schemas/context.py, IntentType Literal). -/
inductive IntentType : Type where
  | get_balance
  | get_statement
  | request_settlement_quote
  | setup_payment_plan
  | query_payment_history
  | query_guidelines
  | escalate_to_agent
  | email_statement
  | payment_date
  | confirm_banking_details
  | unknown
  deriving Repr, DecidableEq

/-- String form of an intent label, as it appears in the Literal type. -/
def IntentType.toLabel : IntentType → String
  | .get_balance => "get_balance"
  | .get_statement => "get_statement"
  | .request_settlement_quote => "request_settlement_quote"
  | .setup_payment_plan => "setup_payment_plan"
  | .query_payment_history => "query_payment_history"
  | .query_guidelines => "query_guidelines"
  | .escalate_to_agent => "escalate_to_agent"
  | .email_statement => "email_statement"
  | .payment_date => "payment_date"
  | .confirm_banking_details => "confirm_banking_details"
  | .unknown => "unknown"

/-- Literal validation of an intent string, as pydantic performs on
model_validate: only the eleven declared labels are accepted. -/
def IntentType.ofLabel : String → Option IntentType
  | "get_balance" => some .get_balance
  | "get_statement" => some .get_statement
  | "request_settlement_quote" => some .request_settlement_quote
  | "setup_payment_plan" => some .setup_payment_plan
  | "query_payment_history" => some .query_payment_history
  | "query_guidelines" => some .query_guidelines
  | "escalate_to_agent" => some .escalate_to_agent
  | "email_statement" => some .email_statement
  | "payment_date" => some .payment_date
  | "confirm_banking_details" => some .confirm_banking_details
  | "unknown" => some .unknown
  | _ => none

/-- ConversationContext exactly as declared in src/schemas/context.py
(lines 108-128): these twelve fields and no others. The attributes
awaiting_input, id_number, email_address, matter_details and
proposed_amount that the pipeline reads and writes are not declared here. -/
structure ConversationContext where
  session_id : String
  debtor_id : String
  last_user_message : Option String := none
  intent : IntentType := .unknown
  entities : NLUEntities := {}
  agent_path : List String := []
  next_agent : Option String := none
  understood_message : Bool := false
  crm : Option ExcaliburContext := none
  reasoning_result : Option ReasoningResult := none
  nlu_reasoning : Option String := none
  final_response : Option String := none
  deriving Repr

/-- Conversation state as the pipeline code dynamically uses it: the twelve
declared ConversationContext fields together with the attributes the
handlers and the flow read and write on the context object (awaiting_input,
id_number, email_address, matter_details, proposed_amount). The intent
field is a plain string here because the flow assigns labels outside the
declared Literal (for example "provide_email"). -/
structure DynCtx where
  session_id : String
  debtor_id : String
  last_user_message : Option String := none
  intent : String := "unknown"
  entities : NLUEntities := {}
  agent_path : List String := []
  next_agent : Option String := none
  understood_message : Bool := false
  crm : Option ExcaliburContext := none
  reasoning_result : Option ReasoningResult := none
  nlu_reasoning : Option String := none
  final_response : Option String := none
  awaiting_input : Option String := none
  id_number : Option String := none
  email_address : Option String := none
  matter_details : Option MatterDetails := none
  proposed_amount : Option Rat := none
  deriving Repr

/-- Two-decimal money rendering used inside message text (the source uses
Python format specifiers; thousands separators are not modelled, they never
influence control flow). -/
def fmtMoney (q : Rat) : String :=
  let cents : Int := (q * 100).floor
  let sign := if cents < 0 then "-" else ""
  let a := cents.natAbs
  let c := a % 100
  sign ++ toString (a / 100) ++ "." ++ (if c < 10 then "0" else "") ++ toString c

/-- JSON encoding of an optional float field. -/
def encodeOptRat : Option Rat → JVal
  | none => jnull
  | some q => jnum q

/-- JSON encoding of an optional string field. -/
def encodeOptStr : Option String → JVal
  | none => jnull
  | some s => jstr s

/-- JSON encoding of an optional int field. -/
def encodeOptInt : Option Int → JVal
  | none => jnull
  | some i => jnum i

/-- JSON encoding of an optional nested model field. -/
def encodeOptModel {B : Type} (f : B → JVal) : Option B → JVal
  | none => jnull
  | some x => f x

/-- Dict produced by NLUEntities.model_dump(): one key per declared entity
field. -/
def NLUEntities.model_dump (e : NLUEntities) : List (String × JVal) :=
  [("amount", encodeOptRat e.amount),
   ("currency", encodeOptStr e.currency),
   ("frequency", encodeOptStr e.frequency),
   ("payment_type", encodeOptStr e.payment_type),
   ("date", encodeOptStr e.date),
   ("raw", jobj e.raw)]

/-- Verification request emitted by BalanceHandler when no id_number is on
file (intent_router.py, BalanceHandler.handle). -/
def balanceVerificationMessage : String :=
  "I can help you check your account balance.\n\n" ++
  "To retrieve your balance, I\x27ll need to verify your account. " ++
  "Please provide your ID number.\n\n" ++
  "Your ID number is used solely for account verification purposes."

/-- Handler for the get_balance intent (intent_router.py, BalanceHandler):
without an id_number it asks for verification and halts; with one it defers
to the data agent. -/
def balanceHandler (c : DynCtx) : DynCtx :=
  if !(optStrTruthy c.id_number) then
    { c with
      awaiting_input := some "id_number",
             final_response := some balanceVerificationMessage,
             next_agent := none }
  else
    { c with next_agent := some "DataAgent" }

/-- Required entities of PaymentPlanHandler (intent_router.py). -/
def REQUIRED_ENTITIES : List String := ["amount", "frequency"]

/-- Handler for the setup_payment_plan intent (intent_router.py,
PaymentPlanHandler): missing entities defer to the response agent, a missing
id_number asks for verification, otherwise the data agent is invoked. -/
def paymentPlanHandler (c : DynCtx) : DynCtx :=
  let dump := c.entities.model_dump
  let missing := REQUIRED_ENTITIES.filter (fun k => ! jTruthy ((dump.lookup k).getD jnull))
  if !missing.isEmpty then
    { c with next_agent := some "ResponseAgent" }
  else if !(optStrTruthy c.id_number) then
    { c with
      awaiting_input := some "id_number",
             final_response := some
               ("I can help you set up a payment plan of R" ++
                fmtMoney (c.entities.amount.getD 0) ++ " " ++
                (c.entities.frequency.getD "") ++ ".\n\n" ++
                "To proceed, I\x27ll need to verify your account. " ++
                "Please provide your ID number.\n\n" ++
                "Your ID number is used solely for account verification purposes."),
             next_agent := none }
  else
    { c with next_agent := some "DataAgent" }

/-- Handler for request_settlement_quote (intent_router.py,
SettlementHandler). -/
def settlementHandler (c : DynCtx) : DynCtx :=
  let dump := c.entities.model_dump
  let amount := (dump.lookup "amount").getD jnull
  let msg :=
    if jTruthy amount then
      "I\x27ll calculate a settlement quote based on your proposed amount of R" ++
      fmtMoney (c.entities.amount.getD 0) ++ ". " ++
      "Please give me a moment to review your account..."
    else
      "I can help you with a settlement quote. " ++
      "Would you like me to calculate the best settlement amount for your account?"
  { c with final_response := some msg, next_agent := some "ReasoningAgent" }

/-- Handler for get_statement (intent_router.py, StatementHandler). -/
def statementHandler (c : DynCtx) : DynCtx :=
  { c with
    final_response := some
      ("I\x27ll retrieve your statement. " ++
       "Would you like to view it here or have it emailed to you?"),
    next_agent := some "DataAgent" }

/-- Handler for query_payment_history (intent_router.py,
PaymentHistoryHandler). -/
def paymentHistoryHandler (c : DynCtx) : DynCtx :=
  { c with
    final_response := some "Let me pull up your recent payment history...",
    next_agent := some "DataAgent" }

/-- Handler for confirm_banking_details (intent_router.py,
BankingDetailsHandler): static disclosure, no transition. -/
def bankingDetailsHandler (c : DynCtx) : DynCtx :=
  { c with
    final_response := some
      ("Here are our verified banking details for payments:\n\n" ++
       "Bank: [Your Bank Name]\n" ++
       "Account Name: [Account Name]\n" ++
       "Account Number: [Account Number]\n" ++
       "Branch Code: [Branch Code]\n" ++
       "Reference: Please use your account number as reference.\n\n" ++
       "Please verify these details match our official correspondence before making any payment.") }

/-- Handler for escalate_to_agent (intent_router.py, EscalateHandler). -/
def escalateHandler (c : DynCtx) : DynCtx :=
  { c with
    final_response := some
      ("I understand you\x27d like to speak with a human agent. " ++
       "I\x27m connecting you now. Please hold while I transfer you to the next available consultant.\n\n" ++
       "Alternatively, you can call us directly at [Phone Number] during business hours."),
    next_agent := some "HumanHandoff" }

/-- Handler for payment_date (intent_router.py, PaymentDateHandler). -/
def paymentDateHandler (c : DynCtx) : DynCtx :=
  { c with
    final_response := some "Let me check your next payment due date...",
    next_agent := some "DataAgent" }

/-- Handler for email_statement (intent_router.py, EmailStatementHandler). -/
def emailStatementHandler (c : DynCtx) : DynCtx :=
  { c with
    final_response := some
      ("I\x27ll send your statement to the email address on file. " ++
       "You should receive it within the next few minutes. " ++
       "Would you like me to confirm the email address we have?") }

/-- Handler for greetings and small talk (intent_router.py,
SmallTalkHandler). -/
def smallTalkHandler (c : DynCtx) : DynCtx :=
  { c with
    final_response := some
      ("Hello! I\x27m here to help you with your account. " ++
       "I can assist you with:\n" ++
       "- Checking your balance\n" ++
       "- Setting up a payment plan\n" ++
       "- Getting a settlement quote\n" ++
       "- Viewing your payment history\n" ++
       "- And more!\n\n" ++
       "How can I help you today?") }

/-- Handler for unknown or unrecognized intents (intent_router.py,
UnknownIntentHandler). -/
def unknownIntentHandler (c : DynCtx) : DynCtx :=
  { c with
    final_response := some
      ("Hi! Could you please tell me if you\x27d like to:\n\n" ++
       "- Check your balance - See your current account balance\n" ++
       "- Make a payment - Set up a payment plan or once-off payment\n" ++
       "- Get a settlement quote - See options to settle your account\n" ++
       "- View payment history - See your recent payments\n" ++
       "- Speak to an agent - Connect with a human consultant\n\n" ++
       "Just let me know how I can help!") }

/-- Handler with below-minimum validation (intent_router.py,
PaymentPlanSetupHandler.handle). It appends its own name to agent_path
unconditionally; without account data it asks for or uses the id_number;
with account data it compares the proposed amount against minimum_payment
using a strict less-than. -/
def paymentPlanSetupHandler (c0 : DynCtx) : DynCtx :=
  let c := { c0 with agent_path := c0.agent_path ++ ["PaymentPlanSetupHandler"] }
  match c.matter_details with
  | none =>
    if !(optStrTruthy c.id_number) then
      { c with
        final_response := some
          ("To set up a payment plan, I\x27ll need to verify your account first. " ++
           "Could you please provide your 13-digit South African ID number?"),
        awaiting_input := some "id_number" }
    else
      { c with next_agent := some "DataAgent" }
  | some md =>
    if !(optRatTruthy c.entities.amount) then
      { c with
        final_response := some
          ("Great! To set up your payment plan, I need a few details:\n\n" ++
           "Please provide:\n" ++
           "1. Amount: How much would you like to pay? (Minimum: R" ++
           fmtMoney md.minimum_payment ++ ")\n" ++
           "2. Frequency: How often? (weekly, fortnightly, or monthly)\n\n" ++
           "For example: \"R500 monthly\" or \"R250 weekly\"\n"),
        awaiting_input := some "payment_details" }
    else
      let proposed := c.entities.amount.getD 0
      if proposed < md.minimum_payment then
        { c with
          final_response := some
            ("I appreciate your offer, but the minimum payment for your account is R" ++
             fmtMoney md.minimum_payment ++ ".\n\n" ++
             "Your proposed amount of R" ++ fmtMoney proposed ++ " is below this minimum.\n\n" ++
             "Would you like me to:\n" ++
             "1. Request approval for R" ++ fmtMoney proposed ++ " from our collections team?\n" ++
             "2. Offer a different amount that meets the minimum?\n\n" ++
             "Please reply with \"request approval\" or provide a new amount."),
          awaiting_input := some "approval_choice",
          proposed_amount := some proposed }
      else
        let frequency := match c.entities.frequency with
          | some f => if f.isEmpty then "monthly" else f
          | none => "monthly"
        { c with
          final_response := some
            ("Perfect! Here\x27s your proposed payment plan:\n\n" ++
             "Payment Plan Summary:\n" ++
             "- Amount: R" ++ fmtMoney proposed ++ "\n" ++
             "- Frequency: " ++ frequency.capitalize ++ "\n" ++
             "- Outstanding Balance: R" ++ fmtMoney md.outstanding_balance ++ "\n\n" ++
             "Would you like me to proceed and set up this arrangement?\n\n" ++
             "Reply \"Yes\" to confirm or \"No\" to make changes."),
          awaiting_input := some "plan_confirmation",
          next_agent := some "ConfirmationHandler" }

/-- Intent-to-handler routing table (intent_router.py, IntentRouter.HANDLERS).
Note that setup_payment_plan and create_payment_arrangement map to
PaymentPlanHandler; PaymentPlanSetupHandler is not registered under any
intent. -/
def HANDLERS : List (String × (DynCtx → DynCtx)) :=
  [("get_balance", balanceHandler),
   ("get_statement", statementHandler),
   ("request_settlement_quote", settlementHandler),
   ("setup_payment_plan", paymentPlanHandler),
   ("query_payment_history", paymentHistoryHandler),
   ("query_guidelines", unknownIntentHandler),
   ("escalate_to_agent", escalateHandler),
   ("email_statement", emailStatementHandler),
   ("payment_date", paymentDateHandler),
   ("confirm_banking_details", bankingDetailsHandler),
   ("unknown", unknownIntentHandler),
   ("create_payment_arrangement", paymentPlanHandler),
   ("request_settlement", settlementHandler),
   ("ask_balance", balanceHandler),
   ("small_talk", smallTalkHandler),
   ("other", unknownIntentHandler)]

/-- Handler dispatch (intent_router.py, IntentRouter, with
UnknownIntentHandler as the default for unregistered intents). -/
def getHandler (intent : String) : DynCtx → DynCtx :=
  (HANDLERS.lookup intent).getD unknownIntentHandler

/-- Routing step (intent_router.py, IntentRouter.route): a falsy intent
falls back to "unknown", the router marks agent_path if not already marked,
then the handler runs. -/
def route (c : DynCtx) : DynCtx :=
  let intent := if c.intent.data.isEmpty then "unknown" else c.intent
  let marked :=
    if "IntentRouter" ∈ c.agent_path then c
    else { c with agent_path := c.agent_path ++ ["IntentRouter"] }
  getHandler intent marked

/-- Structured output of the master intent classifier
(schemas/master_intent.py): the parser validates the intent against the
closed Literal set. -/
structure MasterIntentOutput where
  intent : IntentType
  reasoning : Option String := none
  deriving Repr

/-- Master agent step (agents/master.py, MasterAgent.run) with the model
call abstracted into its parsed result: sets the intent, appends its stage
name to agent_path unconditionally, routes to the NLU agent, marks
understood_message when the intent is not unknown, and overwrites
reasoning_result with a summary (the hasattr guard on the nonexistent
reasoning attribute is always false, so the assignment branch always
runs). -/
def masterRun (result : MasterIntentOutput) (c0 : DynCtx) : DynCtx :=
  let c := { c0 with
    intent := result.intent.toLabel,
    agent_path := c0.agent_path ++ ["Master Agent"],
    next_agent := some "NLU Agent" }
  let c := if c.intent != "unknown" then { c with understood_message := true } else c
  { c with reasoning_result := some { summary := result.reasoning } }

/-- Structured output of the NLU extraction call (schemas/context.py,
NLUResult). -/
structure NLUResult where
  entities : NLUEntities
  reasoning : String
  deriving Repr

/-- NLU agent step (agents/nlu.py, NLUAgent.run) with the model call
abstracted into its parsed result: skips on an empty message, replaces the
entities wholesale, marks understood_message if any dumped entity value is
truthy, and appends its stage name only if not already present. -/
def nluRun (result : NLUResult) (c0 : DynCtx) : DynCtx :=
  if !(optStrTruthy c0.last_user_message) then c0
  else
    let c := { c0 with
      entities := result.entities,
      nlu_reasoning := some result.reasoning }
    let c :=
      if c.entities.model_dump.any (fun p => jTruthy p.2) then
        { c with understood_message := true }
      else c
    if "NLUAgent" ∈ c.agent_path then c
    else { c with agent_path := c.agent_path ++ ["NLUAgent"] }

/-- Result envelope of the data agent (agents/data_agent.py,
DataAgentResult); the HTTP call itself is an external collaborator. -/
structure DataAgentResult where
  success : Bool
  matter_details : Option MatterDetails := none
  error_message : Option String := none
  deriving Repr

/-- Last payment date display used in the account response
(agents/data_agent.py, _build_account_response); the strftime pretty-print
is collapsed to the date part of the ISO string. -/
def lastPaymentDisplay (details : MatterDetails) : String :=
  if !details.last_payment_date.isEmpty
      && (details.last_payment_date.splitOn "1900-01-01").length == 1 then
    ((details.last_payment_date.splitOn "T").headD "")
  else "N/A"

/-- POPIA notice footer appended to every account response
(agents/data_agent.py). -/
def popiaFooter : String :=
  "\n\nPOPIA Compliance Notice: Your personal information is processed in accordance " ++
  "with the Protection of Personal Information Act (POPIA). We only use your data to " ++
  "service your account and will not share it with third parties without your consent. " ++
  "You have the right to access, correct, or request deletion of your personal information."

/-- Intent-dependent account response (agents/data_agent.py,
DataAgent._build_account_response). -/
def buildAccountResponse (details : MatterDetails) (c : DynCtx) : String :=
  let body :=
    if c.intent == "get_balance" || c.intent == "ask_balance" then
      "Thank you for verifying your account. Here are your balance details:\n\n" ++
      "Account Balance:\n" ++
      "- Matter Number: " ++ details.matter_id ++ "\n" ++
      "- Creditor: " ++ details.client_name ++ "\n" ++
      "- Outstanding Balance: R" ++ fmtMoney details.outstanding_balance ++ "\n" ++
      "- Original Amount: R" ++ fmtMoney details.capital_amount ++ "\n" ++
      "- Last Payment Date: " ++ lastPaymentDisplay details ++ "\n\n" ++
      "Would you like to set up a payment plan or get a settlement quote?"
    else if c.intent == "setup_payment_plan" || c.intent == "create_payment_arrangement" then
      let proposedAmount := match c.entities.amount with
        | some q => if q != 0 then "R" ++ fmtMoney q else "the amount you mentioned"
        | none => "the amount you mentioned"
      let proposedFrequency := match c.entities.frequency with
        | some f => if !f.isEmpty then f else "as discussed"
        | none => "as discussed"
      "Thank you for providing your details. I\x27ve located your account.\n\n" ++
      "Account Summary:\n" ++
      "- Matter Number: " ++ details.matter_id ++ "\n" ++
      "- Creditor: " ++ details.client_name ++ "\n" ++
      "- Outstanding Balance: R" ++ fmtMoney details.outstanding_balance ++ "\n" ++
      "- Original Amount: R" ++ fmtMoney details.capital_amount ++ "\n" ++
      "- Minimum Payment Required: R" ++ fmtMoney details.minimum_payment ++ "\n" ++
      "- Last Payment Date: " ++ lastPaymentDisplay details ++ "\n\n" ++
      "Based on your request, I can set up a payment plan of " ++ proposedAmount ++
      " " ++ proposedFrequency ++ ".\n\nWould you like me to proceed with this arrangement?"
    else
      "I\x27ve located your account.\n\n" ++
      "Account Details:\n" ++
      "- Matter Number: " ++ details.matter_id ++ "\n" ++
      "- Creditor: " ++ details.client_name ++ "\n" ++
      "- Outstanding Balance: R" ++ fmtMoney details.outstanding_balance ++ "\n" ++
      "- Original Amount: R" ++ fmtMoney details.capital_amount ++ "\n" ++
      "- Last Payment Date: " ++ lastPaymentDisplay details ++ "\n\n" ++
      "How would you like to proceed?"
  body ++ popiaFooter

/-- Data agent context update (agents/data_agent.py,
DataAgent._update_context): appends its stage name only if not already
present, and on success sets the account response and marks
understood_message; the fetched matter details are not stored on the
context. -/
def dataAgentUpdate (result : DataAgentResult) (c0 : DynCtx) : DynCtx :=
  let c :=
    if "DataAgent" ∈ c0.agent_path then c0
    else { c0 with agent_path := c0.agent_path ++ ["DataAgent"] }
  match result.matter_details with
  | some details =>
    if result.success then
      { c with
        final_response := some (buildAccountResponse details c),
        understood_message := true }
    else
      { c with
        final_response := some
          ("I wasn\x27t able to retrieve your account information. " ++
           (match result.error_message with
            | some m => if m.isEmpty then "Please try again later." else m
            | none => "Please try again later.")) }
  | none =>
    { c with
      final_response := some
        ("I wasn\x27t able to retrieve your account information. " ++
         (match result.error_message with
          | some m => if m.isEmpty then "Please try again later." else m
          | none => "Please try again later.")) }

/-- Result envelope of the email sending call (agents/email_agent.py,
EmailResult). -/
structure EmailResult where
  success : Bool
  error_message : Option String := none
  deriving Repr

/-- Email agent step (agents/email_agent.py, EmailAgent.run_async) with the
HTTP call abstracted into its result: marks agent_path with a presence
check, bails out when email or matter details are missing, and on success
marks understood_message. -/
def emailAgentRun (result : EmailResult) (c0 : DynCtx) : DynCtx :=
  let c :=
    if "EmailAgent" ∈ c0.agent_path then c0
    else { c0 with agent_path := c0.agent_path ++ ["EmailAgent"] }
  if !(optStrTruthy c.email_address) || c.matter_details.isNone then
    { c with
      final_response := some
        "I\x27m missing some information needed to send the approval request." }
  else if result.success then
    { c with
      final_response := some
        ("Approval Request Submitted\n\n" ++
         "I\x27ve sent your payment plan approval request to our collections team.\n\n" ++
         "Request Details:\n" ++
         "- Proposed Amount: R" ++ fmtMoney (c.proposed_amount.getD 0) ++ "\n" ++
         "- Your Email: " ++ (c.email_address.getD "") ++ "\n\n" ++
         "You should receive a response within 24-48 business hours at your email address.\n\n" ++
         "Is there anything else I can help you with?"),
      understood_message := true }
  else
    { c with
      final_response := some
        ("I apologize, but I wasn\x27t able to submit your approval request.\n\n" ++
         (match result.error_message with
          | some m => m
          | none => "None") ++
         "\n\nPlease try again later or contact our support team directly.") }

/-- Structured output of the response generation call
(agents/response_agent.py, ResponseOutput). -/
structure ResponseOutput where
  response : String
  follow_up_question : Option String := none
  action_required : Bool := false
  deriving Repr

/-- Required entities per intent for the clarification flow
(agents/response_agent.py, ResponseAgent.REQUIRED_ENTITIES). -/
def RESPONSE_REQUIRED_ENTITIES : List (String × List String) :=
  [("setup_payment_plan", ["amount", "frequency"]),
   ("request_settlement_quote", ["amount"]),
   ("get_balance", []),
   ("get_statement", []),
   ("query_payment_history", []),
   ("confirm_banking_details", []),
   ("escalate_to_agent", []),
   ("email_statement", []),
   ("payment_date", [])]

/-- Clarification questions for missing entities (agents/response_agent.py,
ResponseAgent.CLARIFICATION_QUESTIONS). -/
def CLARIFICATION_QUESTIONS : List (String × String) :=
  [("amount", "How much would you like to pay?"),
   ("frequency", "How often would you like to make payments? (e.g., weekly, monthly, or once-off)"),
   ("date", "When would you like to start or make this payment?"),
   ("payment_type", "Would you prefer to pay in installments or as a lump sum settlement?")]

/-- Missing required entities of the current intent
(agents/response_agent.py, ResponseAgent._get_missing_entities). -/
def getMissingEntities (c : DynCtx) : List String :=
  let required := (RESPONSE_REQUIRED_ENTITIES.lookup c.intent).getD []
  let dump := c.entities.model_dump
  required.filter (fun k => ! jTruthy ((dump.lookup k).getD jnull))

/-- Deterministic fallback template response (agents/response_agent.py,
ResponseAgent._generate_fallback_response). -/
def generateFallbackResponse (c : DynCtx) : String :=
  let missing := getMissingEntities c
  match missing with
  | k :: _ =>
    let q := (CLARIFICATION_QUESTIONS.lookup k).getD
      ("Could you please provide your " ++ k ++ "?")
    "I\x27d be happy to help you with that. " ++ q
  | [] =>
    let planText :=
      "I can help you set up a payment plan of " ++
      (match c.entities.amount with
       | some q => toString q
       | none => "None") ++ " " ++
      (match c.entities.frequency with
       | some f => if !f.isEmpty then f else "as discussed"
       | none => "as discussed") ++
      " Shall I proceed with this arrangement?"
    let unknownText :=
      "I\x27m not sure I understood your request. Could you please tell me if you\x27d like to:\n" ++
      "- Check your balance\n- Set up a payment plan\n- Get a settlement quote\n- Something else?"
    let TEMPLATES : List (String × String) :=
      [("get_balance", "I\x27ll look up your current balance for you. One moment please..."),
       ("get_statement", "I\x27ll retrieve your statement. Please give me a moment..."),
       ("setup_payment_plan", planText),
       ("request_settlement_quote", "I\x27ll calculate a settlement quote for you based on your account. One moment..."),
       ("query_payment_history", "Let me pull up your recent payment history..."),
       ("confirm_banking_details", "I\x27ll confirm our banking details for you to make a secure payment."),
       ("email_statement", "I\x27ll arrange for your statement to be emailed to you."),
       ("payment_date", "Let me check when your next payment is due..."),
       ("escalate_to_agent", "I understand you\x27d like to speak with a human agent. Let me connect you with someone who can help."),
       ("unknown", unknownText)]
    (TEMPLATES.lookup c.intent).getD unknownText

/-- Response agent step (agents/response_agent.py, ResponseAgent.run) with
the model call abstracted: none models a model-call failure, which falls
back to the deterministic template; the stage name is appended with a
presence check. -/
def responseAgentRun (result : Option ResponseOutput) (c0 : DynCtx) : DynCtx :=
  let response := match result with
    | some r =>
      match r.follow_up_question with
      | some f => if !f.isEmpty then r.response ++ "\n\n" ++ f else r.response
      | none => r.response
    | none => generateFallbackResponse c0
  let c := { c0 with final_response := some response }
  if "ResponseAgent" ∈ c.agent_path then c
  else { c with agent_path := c.agent_path ++ ["ResponseAgent"] }

/-- Exception classes relevant to the email validation path. Pydantic v2
raises PydanticCustomError (a ValueError subclass) from validate_email;
ValidationError is the distinct class raised by model validation. -/
inductive PyExc : Type where
  | validationError (msg : String)
  | pydanticCustomError (msg : String)
  deriving Repr, DecidableEq

/-- Allowed characters of the local part in the basic email pattern. -/
def emailAtext (ch : Char) : Bool :=
  ch.isAlphanum || ch == '.' || ch == '_' || ch == '%' || ch == '+' || ch == '-'

/-- Syntactic email validity as decided by the email-validator package
behind pydantic v2 validate_email: exactly one at sign, a nonempty dot-atom
local part, and a dotted domain whose final label is an alphabetic
top-level domain of length at least two (so a domain without a period, such
as in "a@b", is rejected). This models the external library on the shapes
the repository exercises. -/
def emailSyntaxOk (s : String) : Bool :=
  match splitCharList '@' s.data with
  | [loc, domain] =>
    !loc.isEmpty && loc.all emailAtext &&
    !(loc.headD ' ' == '.') && !(loc.getLastD ' ' == '.') && !(hasDoubleDot loc) &&
    (let labels := splitCharList '.' domain
     let tld := labels.getLastD []
     decide (labels.length ≥ 2) &&
     labels.all (fun l => !l.isEmpty && l.all (fun ch => ch.isAlphanum || ch == '-')) &&
     tld.all Char.isAlpha && decide (tld.length ≥ 2))
  | _ => false

/-- Behaviour of pydantic v2 validate_email (pydantic.networks, an external
collaborator of this repository): on success it returns the pair of display
name and normalized address, on failure it raises PydanticCustomError, not
ValidationError. -/
def pydanticValidateEmail (s : String) : Except PyExc (String × String) :=
  if emailSyntaxOk s then .ok ("", s)
  else .error (.pydanticCustomError "value is not a valid email address")

/-- Email validator (utils/validators.py, validate_email_address): blank
input returns a prompt; otherwise the cleaned lowercase address is passed to
pydantic validate_email, and only ValidationError is caught by the except
clause — any other exception escapes to the caller, which the Except error
branch models. -/
def validate_email_address (email : String) : Except PyExc (Bool × String × String) :=
  if email.data.isEmpty || (pyStrip email).data.isEmpty then
    .ok (false, "", "Please provide an email address.")
  else
    let cleaned := pyLower (pyStrip email)
    match pydanticValidateEmail cleaned with
    | .ok v => .ok (true, v.2, "")
    | .error e =>
      match e with
      | .validationError _ =>
        .ok (false, "",
          "That doesn\x27t look like a valid email address. Please check and try again.")
      | .pydanticCustomError m => .error (.pydanticCustomError m)

/-- Identity-number detection (orchestration/flow.py, is_id_number): strip,
remove spaces and hyphens, then require exactly 13 digits. -/
def is_id_number (message : String) : Bool :=
  let cleaned := removeChar '-' (removeChar ' ' (pyStrip message))
  cleaned.data.length == 13 && cleaned.data.all Char.isDigit

/-- Basic email pattern of orchestration/flow.py is_email: one at sign,
a nonempty local part of the allowed characters, and a domain of allowed
characters ending in a dot followed by an alphabetic TLD of length at least
two. -/
def basicEmailPattern (s : String) : Bool :=
  match splitCharList '@' s.data with
  | [loc, domain] =>
    !loc.isEmpty && loc.all emailAtext &&
    (let labels := splitCharList '.' domain
     let tld := labels.getLastD []
     decide (labels.length ≥ 2) &&
     decide ((labels.dropLast.map List.length).sum > 0) &&
     (labels.dropLast.all (fun l => l.all (fun ch => ch.isAlphanum || ch == '.' || ch == '-'))) &&
     tld.all Char.isAlpha && decide (tld.length ≥ 2))
  | _ => false

/-- Email detection (orchestration/flow.py, is_email): strip, require an at
sign and no spaces, check the basic pattern, then run pydantic validation
catching every exception. -/
def is_email (message : String) : Bool :=
  let m := pyStrip message
  if !(m.data.contains '@') || m.data.contains ' ' then false
  else if !(basicEmailPattern m) then false
  else
    match pydanticValidateEmail m with
    | .ok _ => true
    | .error _ => false

/-- Inbound request of one turn (schemas/context.py,
OrchestrationRequest). -/
structure OrchestrationRequest where
  message : String
  debtor_id : String
  session_id : String
  channel : Option String := none
  deriving Repr

/-- Fresh context of a new session (orchestration/flow.py,
build_initial_context). -/
def build_initial_context (request : OrchestrationRequest) : DynCtx :=
  { session_id := request.session_id,
    debtor_id := request.debtor_id,
    last_user_message := some request.message }

/-- Results of the external calls a single turn can make, abstracting the
model inference and remote API collaborators. -/
structure TurnOracles where
  masterResult : MasterIntentOutput
  nluResult : NLUResult
  dataResult : DataAgentResult
  emailResult : EmailResult
  responseResult : Option ResponseOutput
  deriving Repr

/-- Condition under which the flow invokes the data-fetch stage after
routing (orchestration/flow.py line 139). -/
def dataFetchGuard (c : DynCtx) : Bool :=
  c.next_agent == some "DataAgent" && optStrTruthy c.id_number

/-- Per-turn context resolution (orchestration/flow.py lines 82-92): the
loaded session updated with the new message, or a fresh context. -/
def turnResolveContext (request : OrchestrationRequest) (existing : Option DynCtx) :
    DynCtx :=
  match existing with
  | some c0 => { c0 with last_user_message := some request.message }
  | none => build_initial_context request

/-- Email detection step (orchestration/flow.py lines 102-109): when the
message looks like an email address it is captured, the intent is forced to
provide_email, and the email agent runs. -/
def turnEmailStep (o : TurnOracles) (c : DynCtx) : DynCtx :=
  if optStrTruthy c.last_user_message && is_email (c.last_user_message.getD "") then
    emailAgentRun o.emailResult
      { c with
        email_address := some (pyStrip (c.last_user_message.getD "")),
        intent := "provide_email",
        agent_path := c.agent_path ++ ["Email Detected"] }
  else c

/-- Routing tail of the normal flow (orchestration/flow.py lines 135-149):
route, conditional data fetch, conditional response generation. -/
def turnRouteFetchRespond (o : TurnOracles) (c0 : DynCtx) : DynCtx :=
  let c := route c0
  let c := if dataFetchGuard c then dataAgentUpdate o.dataResult c else c
  if !(optStrTruthy c.final_response) || c.next_agent == some "ResponseAgent" then
    responseAgentRun o.responseResult c
  else c

/-- Normal classification flow (orchestration/flow.py lines 121-149):
master classification, NLU extraction, consumption of an awaited id number,
then the routing tail. -/
def turnNormalFlow (o : TurnOracles) (c0 : DynCtx) : DynCtx :=
  let c := masterRun o.masterResult c0
  let c := nluRun o.nluResult c
  let c :=
    if c.awaiting_input == some "id_number" then
      { c with
        id_number := some (pyStrip (c.last_user_message.getD "")),
        awaiting_input := none }
    else c
  turnRouteFetchRespond o c

/-- Identity-number branch (orchestration/flow.py lines 112-120): a bare
13-digit message is consumed as the id number with a forced get_balance
intent and a direct data-agent call; otherwise the normal flow runs. -/
def turnIdStep (o : TurnOracles) (c : DynCtx) : DynCtx :=
  if optStrTruthy c.last_user_message && is_id_number (c.last_user_message.getD "") then
    dataAgentUpdate o.dataResult
      { c with
        id_number := some (removeChar '-' (removeChar ' ' (pyStrip (c.last_user_message.getD "")))),
        intent := "get_balance",
        agent_path := c.agent_path ++ ["ID Number Detected"] }
  else turnNormalFlow o c

/-- One orchestration turn (orchestration/flow.py, run_orchestration), from
the resolved context (loaded session or fresh) to the final context and the
externally reported status string. -/
def runTurn (o : TurnOracles) (request : OrchestrationRequest)
    (existing : Option DynCtx) : DynCtx × String :=
  let c := turnResolveContext request existing
  let c := turnEmailStep o c
  let c := turnIdStep o c
  let c := { c with agent_path := c.agent_path ++ ["Orchestrator"] }
  (c, if c.understood_message then "completed" else "failed")

/-- Serialized context data: the JSON-like dict stored by the session
store. -/
def CtxData : Type := List (String × JVal)

instance : Repr CtxData := inferInstanceAs (Repr (List (String × JVal)))

/-- Python dict assignment: replace in place if the key exists, else append
(dicts preserve insertion order). -/
def dictSet {α : Type} (m : List (String × α)) (k : String) (v : α) :
    List (String × α) :=
  if m.any (fun p => p.1 == k) then m.map (fun p => if p.1 == k then (k, v) else p)
  else m ++ [(k, v)]

/-- Python dict.pop(key, None): drop the key if present. -/
def dictPop {α : Type} (m : List (String × α)) (k : String) : List (String × α) :=
  m.filter (fun p => p.1 != k)

/-- In-memory session store state (services/session_store.py,
InMemorySessionStore): the context dict per session, the last-access
timestamp per session, and the configured time-to-live in seconds. Wall
clock time is passed to every operation as a natural number of seconds. -/
structure InMemorySessionStore where
  store : List (String × CtxData) := []
  timestamps : List (String × Nat) := []
  ttl : Nat := 3600
  deriving Repr

/-- Expiry check (InMemorySessionStore._is_expired): a session without a
timestamp counts as expired; otherwise it is expired once strictly more
than ttl seconds have passed since the recorded access. -/
def InMemorySessionStore.isExpired (s : InMemorySessionStore) (now : Nat)
    (session_id : String) : Bool :=
  match s.timestamps.lookup session_id with
  | none => true
  | some t => now - t > s.ttl

/-- Expiry of a timestamped entry, used by the cleanup sweep
(InMemorySessionStore._cleanup_expired iterates the timestamp keys). -/
def timestampExpired (ttl now t : Nat) : Bool := now - t > ttl

/-- Cleanup sweep (InMemorySessionStore._cleanup_expired): every session
whose timestamp has expired is popped from both maps. -/
def InMemorySessionStore.cleanupExpired (s : InMemorySessionStore) (now : Nat) :
    InMemorySessionStore :=
  let expiredIds := (s.timestamps.filter (fun p => timestampExpired s.ttl now p.2)).map (·.1)
  { s with
    store := s.store.filter (fun p => !(expiredIds.contains p.1)),
    timestamps := s.timestamps.filter (fun p => !(timestampExpired s.ttl now p.2)) }

/-- Save (InMemorySessionStore.save_context): sweep expired entries, store
the data and stamp the access time; always reports success. -/
def InMemorySessionStore.save_context (s : InMemorySessionStore) (now : Nat)
    (session_id : String) (context_data : CtxData) : Bool × InMemorySessionStore :=
  let s := s.cleanupExpired now
  (true,
   { s with
     store := dictSet s.store session_id context_data,
     timestamps := dictSet s.timestamps session_id now })

/-- Delete (InMemorySessionStore.delete_context): pop from both maps. -/
def InMemorySessionStore.delete_context (s : InMemorySessionStore)
    (session_id : String) : Bool × InMemorySessionStore :=
  (true,
   { s with
     store := dictPop s.store session_id,
     timestamps := dictPop s.timestamps session_id })

/-- Load (InMemorySessionStore.load_context): an expired session is deleted
and None returned; a present, truthy context refreshes the timestamp
(sliding expiration) and is returned. -/
def InMemorySessionStore.load_context (s : InMemorySessionStore) (now : Nat)
    (session_id : String) : Option CtxData × InMemorySessionStore :=
  if s.isExpired now session_id then
    (none, (s.delete_context session_id).2)
  else
    match s.store.lookup session_id with
    | some context =>
      if !(List.isEmpty context) then
        (some context, { s with timestamps := dictSet s.timestamps session_id now })
      else (some context, s)
    | none => (none, s)

/-- Existence check (InMemorySessionStore.exists): absent keys report
false; expired sessions are deleted and report false. -/
def InMemorySessionStore.sessionExists (s : InMemorySessionStore) (now : Nat)
    (session_id : String) : Bool × InMemorySessionStore :=
  if (s.store.lookup session_id).isNone then (false, s)
  else if s.isExpired now session_id then (false, (s.delete_context session_id).2)
  else (true, s)

/-- Redis server state as this repository uses it: keys mapped to a stored
JSON document (modelled by its parsed structure, json.dumps and json.loads
being mutually inverse on it) and an absolute expiry time. Expired keys
behave as absent. -/
structure RedisState where
  kv : List (String × (CtxData × Nat)) := []
  deriving Repr

/-- Redis SETEX: store the value with expiry now + ttl. -/
def RedisState.setex (st : RedisState) (now : Nat) (key : String) (ttl : Nat)
    (v : CtxData) : RedisState :=
  { kv := dictSet st.kv key (v, now + ttl) }

/-- Redis GET: a value is visible while now is strictly before its expiry
time. -/
def RedisState.get (st : RedisState) (now : Nat) (key : String) : Option CtxData :=
  match st.kv.lookup key with
  | some (v, e) => if now < e then some v else none
  | none => none

/-- Redis EXPIRE: reset the expiry window of a live key. -/
def RedisState.expire (st : RedisState) (now : Nat) (key : String) (ttl : Nat) :
    RedisState :=
  match st.kv.lookup key with
  | some (v, e) => if now < e then { kv := dictSet st.kv key (v, now + ttl) } else st
  | none => st

/-- Redis TTL: remaining seconds of a live key, -2 when absent. -/
def RedisState.ttlOf (st : RedisState) (now : Nat) (key : String) : Int :=
  match st.kv.lookup key with
  | some (_, e) => if now < e then ((e : Int) - now) else -2
  | none => -2

/-- Redis DEL of a single key. -/
def RedisState.del (st : RedisState) (key : String) : RedisState :=
  { kv := dictPop st.kv key }

/-- Redis SCAN over the session namespace pattern mynah:session:* ,
returning the live keys. -/
def RedisState.scanSessionKeys (st : RedisState) (now : Nat) : List String :=
  ((st.kv.filter (fun p =>
    List.isPrefixOf "mynah:session:".data p.1.data && now < p.2.2)).map (·.1))

/-- Key namespace of the Redis backend (RedisSessionStore._get_key). -/
def redisKeyOf (session_id : String) : String := "mynah:session:" ++ session_id

/-- Save to Redis (RedisSessionStore.save_context): SETEX with the
configured ttl. -/
def redisSaveContext (st : RedisState) (now ttl : Nat) (session_id : String)
    (context_data : CtxData) : Bool × RedisState :=
  (true, st.setex now (redisKeyOf session_id) ttl context_data)

/-- Load from Redis (RedisSessionStore.load_context): a present value
refreshes the key's TTL (sliding expiration) and is parsed back. -/
def redisLoadContext (st : RedisState) (now ttl : Nat) (session_id : String) :
    Option CtxData × RedisState :=
  match st.get now (redisKeyOf session_id) with
  | some d => (some d, st.expire now (redisKeyOf session_id) ttl)
  | none => (none, st)

/-- Delete from Redis (RedisSessionStore.delete_context). -/
def redisDeleteContext (st : RedisState) (session_id : String) : Bool × RedisState :=
  (true, st.del (redisKeyOf session_id))

/-- Existence check on Redis (RedisSessionStore.exists). -/
def redisSessionExists (st : RedisState) (now : Nat) (session_id : String) : Bool :=
  (st.get now (redisKeyOf session_id)).isSome

/-- Selected backend of the SessionStore facade
(services/session_store.py, SessionStore.__init__): Redis when reachable,
in-memory otherwise. -/
inductive Backend : Type where
  | inMemory (s : InMemorySessionStore)
  | redis (st : RedisState)
  deriving Repr

/-- SessionStore facade (services/session_store.py, SessionStore): the
configured ttl and the selected backend. -/
structure SessionStore where
  ttl : Nat := 3600
  backend : Backend
  deriving Repr

/-- Facade save of raw context data (SessionStore.save after the model has
been dumped to a dict). -/
def SessionStore.saveData (ss : SessionStore) (now : Nat) (session_id : String)
    (context_data : CtxData) : Bool × SessionStore :=
  match ss.backend with
  | .inMemory s =>
    let r := s.save_context now session_id context_data
    (r.1, { ss with backend := .inMemory r.2 })
  | .redis st =>
    let r := redisSaveContext st now ss.ttl session_id context_data
    (r.1, { ss with backend := .redis r.2 })

/-- Facade load of raw context data (SessionStore.load without a context
class). -/
def SessionStore.loadData (ss : SessionStore) (now : Nat) (session_id : String) :
    Option CtxData × SessionStore :=
  match ss.backend with
  | .inMemory s =>
    let r := s.load_context now session_id
    (r.1, { ss with backend := .inMemory r.2 })
  | .redis st =>
    let r := redisLoadContext st now ss.ttl session_id
    (r.1, { ss with backend := .redis r.2 })

/-- Facade existence check (SessionStore.exists). -/
def SessionStore.sessionExists (ss : SessionStore) (now : Nat) (session_id : String) :
    Bool × SessionStore :=
  match ss.backend with
  | .inMemory s =>
    let r := s.sessionExists now session_id
    (r.1, { ss with backend := .inMemory r.2 })
  | .redis st => (redisSessionExists st now session_id, ss)

/-- Remaining TTL reported by the facade (SessionStore.get_ttl): the Redis
TTL command, or for the in-memory backend the configured ttl minus the
elapsed time, floored at zero; -2 when the session has no timestamp. -/
def SessionStore.get_ttl (ss : SessionStore) (now : Nat) (session_id : String) : Int :=
  match ss.backend with
  | .redis st => st.ttlOf now (redisKeyOf session_id)
  | .inMemory s =>
    match s.timestamps.lookup session_id with
    | some t => max 0 ((s.ttl : Int) - ((now : Int) - (t : Int)))
    | none => -2

/-- String read from a stored context dict with a default
(data.get(key, default) where a string is expected). -/
def getStrField (d : CtxData) (k : String) (dflt : String) : String :=
  match d.lookup k with
  | some (JVal.jstr s) => s
  | _ => dflt

/-- Session metadata row produced by SessionStore.list_sessions. -/
structure SessionInfo where
  session_id : String
  debtor_id : String
  ttl_seconds : Int
  last_intent : String
  last_message : String
  agent_path : List JVal
  has_id_number : Bool
  has_matter_details : Bool
  deriving Repr

/-- Metadata row built from a stored context dict (the dictionary literal
shared by both branches of SessionStore.list_sessions). -/
def sessionInfoOf (session_id : String) (ttl_seconds : Int) (data : CtxData) :
    SessionInfo :=
  { session_id := session_id,
    debtor_id := getStrField data "debtor_id" "unknown",
    ttl_seconds := ttl_seconds,
    last_intent := getStrField data "intent" "unknown",
    last_message := ⟨(getStrField data "last_user_message" "").data.take 50⟩,
    agent_path := (match data.lookup "agent_path" with
                   | some (JVal.jarr l) => l
                   | _ => []),
    has_id_number := (match data.lookup "id_number" with
                      | some v => jTruthy v
                      | none => false),
    has_matter_details := (match data.lookup "matter_details" with
                           | some v => !(v matches JVal.jnull)
                           | none => false) }

/-- Stable insertion into a TTL-descending list. -/
def insertByTtlDesc (x : SessionInfo) : List SessionInfo → List SessionInfo
  | [] => [x]
  | y :: ys =>
    if y.ttl_seconds ≥ x.ttl_seconds then y :: insertByTtlDesc x ys
    else x :: y :: ys

/-- Descending stable sort by remaining TTL used by list_sessions. -/
def sortByTtlDesc (l : List SessionInfo) : List SessionInfo :=
  l.foldr insertByTtlDesc []

/-- Diagnostic session listing (SessionStore.list_sessions, with no search
filter). The Redis branch reads each key's TTL and then loads the session
through the facade load path, which refreshes the key's TTL; the in-memory
branch reads the backing maps directly without mutation. -/
def SessionStore.list_sessions (ss : SessionStore) (now : Nat) :
    List SessionInfo × SessionStore :=
  match ss.backend with
  | .redis st0 =>
    let step := fun (acc : List SessionInfo × RedisState) (key : String) =>
      let session_id := (splitOnChar ':' key).getLastD ""
      let ttl := acc.2.ttlOf now key
      let r := redisLoadContext acc.2 now ss.ttl session_id
      match r.1 with
      | some data =>
        if !(List.isEmpty data) then
          (acc.1 ++ [sessionInfoOf session_id ttl data], r.2)
        else (acc.1, r.2)
      | none => (acc.1, r.2)
    let r := (st0.scanSessionKeys now).foldl step ([], st0)
    (sortByTtlDesc r.1, { ss with backend := .redis r.2 })
  | .inMemory s =>
    let rows := s.store.filterMap (fun p =>
      if s.isExpired now p.1 then none
      else
        match s.timestamps.lookup p.1 with
        | some t =>
          let ttl : Int := max 0 ((s.ttl : Int) - ((now : Int) - (t : Int)))
          some (sessionInfoOf p.1 ttl p.2)
        | none => none)
    (sortByTtlDesc rows, ss)

/-- Statistics summary returned by SessionStore.get_stats. -/
structure StoreStats where
  backendName : String
  connected : Bool
  session_keys : Nat
  deriving Repr

/-- Diagnostic statistics (SessionStore.get_stats): the Redis branch only
reads server info and scans the namespace; the in-memory branch first runs
the expiry cleanup sweep on the backing maps. -/
def SessionStore.get_stats (ss : SessionStore) (now : Nat) :
    StoreStats × SessionStore :=
  match ss.backend with
  | .redis st =>
    ({ backendName := "redis", connected := true,
       session_keys := (st.scanSessionKeys now).length }, ss)
  | .inMemory s =>
    let s := s.cleanupExpired now
    ({ backendName := "in-memory", connected := true,
       session_keys := s.store.length },
     { ss with backend := .inMemory s })

/-- Validation of an optional float field: missing or null gives None, a
number gives the value, anything else fails. -/
def decodeOptRatField : Option JVal → Option (Option Rat)
  | none => some none
  | some jnull => some none
  | some (jnum q) => some (some q)
  | some _ => none

/-- Validation of an optional string field. -/
def decodeOptStrField : Option JVal → Option (Option String)
  | none => some none
  | some jnull => some none
  | some (jstr s) => some (some s)
  | some _ => none

/-- Validation of an optional int field. -/
def decodeOptIntField : Option JVal → Option (Option Int)
  | none => some none
  | some jnull => some none
  | some (jnum q) => if q.den == 1 then some (some q.num) else none
  | some _ => none

/-- Validation of a required float field. -/
def decodeRatField : Option JVal → Option Rat
  | some (jnum q) => some q
  | _ => none

/-- Validation of a required int field. -/
def decodeIntField : Option JVal → Option Int
  | some (jnum q) => if q.den == 1 then some q.num else none
  | _ => none

/-- Validation of a required string field. -/
def decodeStrField : Option JVal → Option String
  | some (jstr s) => some s
  | _ => none

/-- Validation of one string element of a JSON array. -/
def decodeStrItem : JVal → Option String
  | jstr s => some s
  | _ => none

/-- Validation of a required bool field. -/
def decodeBoolField : Option JVal → Option Bool
  | some (jbool b) => some b
  | _ => none

/-- Validation of a bool field with a declared default. -/
def decodeBoolFieldD (dflt : Bool) : Option JVal → Option Bool
  | none => some dflt
  | some (jbool b) => some b
  | _ => none

/-- Validation of an optional nested model field: missing or null gives
None, anything else is validated by the nested validator. -/
def decodeOptModelField {B : Type} (f : JVal → Option B) : Option JVal → Option (Option B)
  | none => some none
  | some jnull => some none
  | some v => (f v).map some

/-- Element-wise validation of a JSON array. -/
def validateList {β : Type} (f : JVal → Option β) : List JVal → Option (List β)
  | [] => some []
  | x :: xs => do
    let y ← f x
    let ys ← validateList f xs
    some (y :: ys)

/-- Validation of NLUEntities from its dumped dict. -/
def NLUEntities.model_validate (v : JVal) : Option NLUEntities :=
  match v with
  | jobj d => do
    let amount ← decodeOptRatField (d.lookup "amount")
    let currency ← decodeOptStrField (d.lookup "currency")
    let frequency ← decodeOptStrField (d.lookup "frequency")
    let payment_type ← decodeOptStrField (d.lookup "payment_type")
    let date ← decodeOptStrField (d.lookup "date")
    let raw ← match d.lookup "raw" with
      | some (jobj l) => some l
      | none => some []
      | _ => none
    some { amount := amount, currency := currency, frequency := frequency,
           payment_type := payment_type, date := date, raw := raw }
  | _ => none

/-- Dump of BookRulesModule. -/
def BookRulesModule.model_dump (b : BookRulesModule) : JVal :=
  jobj [("global_minimum_installment", jnum b.global_minimum_installment),
        ("max_term_months", jnum b.max_term_months),
        ("settlement_approval_threshold", jnum b.settlement_approval_threshold)]

/-- Validation of BookRulesModule. -/
def BookRulesModule.model_validate (v : JVal) : Option BookRulesModule :=
  match v with
  | jobj d => do
    let g ← decodeRatField (d.lookup "global_minimum_installment")
    let m ← decodeIntField (d.lookup "max_term_months")
    let t ← decodeRatField (d.lookup "settlement_approval_threshold")
    some { global_minimum_installment := g, max_term_months := m,
           settlement_approval_threshold := t }
  | _ => none

/-- Dump of one payment history entry. -/
def PaymentHistoryEntity.model_dump (p : PaymentHistoryEntity) : JVal :=
  jobj [("amount", jnum p.amount), ("date", jstr p.date), ("status", jstr p.status)]

/-- Validation of one payment history entry. -/
def PaymentHistoryEntity.model_validate (v : JVal) : Option PaymentHistoryEntity :=
  match v with
  | jobj d => do
    let a ← decodeRatField (d.lookup "amount")
    let dt ← decodeStrField (d.lookup "date")
    let st ← decodeStrField (d.lookup "status")
    some { amount := a, date := dt, status := st }
  | _ => none

/-- Dump of the payment history module. -/
def PaymentHistoryModule.model_dump (p : PaymentHistoryModule) : JVal :=
  jobj [("has_broken_arrangements", jbool p.has_broken_arrangements),
        ("last_arrangement_status", encodeOptStr p.last_arrangement_status),
        ("recent_payments", jarr (p.recent_payments.map PaymentHistoryEntity.model_dump))]

/-- Validation of the payment history module. -/
def PaymentHistoryModule.model_validate (v : JVal) : Option PaymentHistoryModule :=
  match v with
  | jobj d => do
    let h ← decodeBoolField (d.lookup "has_broken_arrangements")
    let l ← decodeOptStrField (d.lookup "last_arrangement_status")
    let r ← match d.lookup "recent_payments" with
      | some (jarr xs) => validateList PaymentHistoryEntity.model_validate xs
      | none => some []
      | _ => none
    some { has_broken_arrangements := h, last_arrangement_status := l,
           recent_payments := r }
  | _ => none

/-- Dump of the CRM account snapshot. -/
def ExcaliburContext.model_dump (e : ExcaliburContext) : JVal :=
  jobj [("account_id", jstr e.account_id),
        ("balance", jnum e.balance),
        ("currency", jstr e.currency),
        ("status", jstr e.status),
        ("book_rules", e.book_rules.model_dump),
        ("payment_history", e.payment_history.model_dump)]

/-- Validation of the CRM account snapshot. -/
def ExcaliburContext.model_validate (v : JVal) : Option ExcaliburContext :=
  match v with
  | jobj d => do
    let a ← decodeStrField (d.lookup "account_id")
    let b ← decodeRatField (d.lookup "balance")
    let c ← decodeStrField (d.lookup "currency")
    let s ← decodeStrField (d.lookup "status")
    let br ← match d.lookup "book_rules" with
      | some v => BookRulesModule.model_validate v
      | none => none
    let ph ← match d.lookup "payment_history" with
      | some v => PaymentHistoryModule.model_validate v
      | none => none
    some { account_id := a, balance := b, currency := c, status := s,
           book_rules := br, payment_history := ph }
  | _ => none

/-- Dump of the arrangement reasoning record. -/
def ArrangementReasoning.model_dump (a : ArrangementReasoning) : JVal :=
  jobj [("meets_minimum_installment", jbool a.meets_minimum_installment),
        ("proposed_installment_amount", encodeOptRat a.proposed_installment_amount),
        ("term_months", encodeOptInt a.term_months),
        ("requires_human_review", jbool a.requires_human_review),
        ("reason", encodeOptStr a.reason)]

/-- Validation of the arrangement reasoning record. -/
def ArrangementReasoning.model_validate (v : JVal) : Option ArrangementReasoning :=
  match v with
  | jobj d => do
    let m ← decodeBoolField (d.lookup "meets_minimum_installment")
    let p ← decodeOptRatField (d.lookup "proposed_installment_amount")
    let t ← decodeOptIntField (d.lookup "term_months")
    let r ← decodeBoolField (d.lookup "requires_human_review")
    let re ← decodeOptStrField (d.lookup "reason")
    some { meets_minimum_installment := m, proposed_installment_amount := p,
           term_months := t, requires_human_review := r, reason := re }
  | _ => none

/-- Dump of the settlement reasoning record. -/
def SettlementReasoning.model_dump (s : SettlementReasoning) : JVal :=
  jobj [("proposed_settlement_amount", encodeOptRat s.proposed_settlement_amount),
        ("discount_ratio", encodeOptRat s.discount_ratio),
        ("above_approval_threshold", jbool s.above_approval_threshold),
        ("requires_manager_approval", jbool s.requires_manager_approval),
        ("reason", encodeOptStr s.reason)]

/-- Validation of the settlement reasoning record. -/
def SettlementReasoning.model_validate (v : JVal) : Option SettlementReasoning :=
  match v with
  | jobj d => do
    let p ← decodeOptRatField (d.lookup "proposed_settlement_amount")
    let dr ← decodeOptRatField (d.lookup "discount_ratio")
    let ab ← decodeBoolField (d.lookup "above_approval_threshold")
    let rm ← decodeBoolField (d.lookup "requires_manager_approval")
    let re ← decodeOptStrField (d.lookup "reason")
    some { proposed_settlement_amount := p, discount_ratio := dr,
           above_approval_threshold := ab, requires_manager_approval := rm,
           reason := re }
  | _ => none

/-- Dump of the reasoning result. -/
def ReasoningResult.model_dump (r : ReasoningResult) : JVal :=
  jobj [("arrangement", encodeOptModel ArrangementReasoning.model_dump r.arrangement),
        ("settlement", encodeOptModel SettlementReasoning.model_dump r.settlement),
        ("summary", encodeOptStr r.summary)]

/-- Validation of the reasoning result. -/
def ReasoningResult.model_validate (v : JVal) : Option ReasoningResult :=
  match v with
  | jobj d => do
    let a ← decodeOptModelField ArrangementReasoning.model_validate (d.lookup "arrangement")
    let s ← decodeOptModelField SettlementReasoning.model_validate (d.lookup "settlement")
    let su ← decodeOptStrField (d.lookup "summary")
    some { arrangement := a, settlement := s, summary := su }
  | _ => none

/-- Dump of the declared ConversationContext
(context.model_dump(mode="json") as performed by SessionStore.save): one
key per declared field. -/
def ConversationContext.model_dump (c : ConversationContext) : CtxData :=
  [("session_id", jstr c.session_id),
   ("debtor_id", jstr c.debtor_id),
   ("last_user_message", encodeOptStr c.last_user_message),
   ("intent", jstr c.intent.toLabel),
   ("entities", jobj c.entities.model_dump),
   ("agent_path", jarr (c.agent_path.map jstr)),
   ("next_agent", encodeOptStr c.next_agent),
   ("understood_message", jbool c.understood_message),
   ("crm", encodeOptModel ExcaliburContext.model_dump c.crm),
   ("reasoning_result", encodeOptModel ReasoningResult.model_dump c.reasoning_result),
   ("nlu_reasoning", encodeOptStr c.nlu_reasoning),
   ("final_response", encodeOptStr c.final_response)]

/-- Validation of the declared ConversationContext
(ConversationContext.model_validate as performed by SessionStore.load):
required identifiers, Literal-checked intent, defaults for absent fields,
recursive validation of the nested models. -/
def ConversationContext.model_validate (d : CtxData) : Option ConversationContext := do
  let session_id ← decodeStrField (d.lookup "session_id")
  let debtor_id ← decodeStrField (d.lookup "debtor_id")
  let last_user_message ← decodeOptStrField (d.lookup "last_user_message")
  let intent ← match d.lookup "intent" with
    | none => some IntentType.unknown
    | some (jstr s) => IntentType.ofLabel s
    | some _ => none
  let entities ← match d.lookup "entities" with
    | none => some {}
    | some v => NLUEntities.model_validate v
  let agent_path ← match d.lookup "agent_path" with
    | none => some []
    | some (jarr xs) => validateList decodeStrItem xs
    | some _ => none
  let next_agent ← decodeOptStrField (d.lookup "next_agent")
  let understood_message ← decodeBoolFieldD false (d.lookup "understood_message")
  let crm ← decodeOptModelField ExcaliburContext.model_validate (d.lookup "crm")
  let reasoning_result ← decodeOptModelField ReasoningResult.model_validate
    (d.lookup "reasoning_result")
  let nlu_reasoning ← decodeOptStrField (d.lookup "nlu_reasoning")
  let final_response ← decodeOptStrField (d.lookup "final_response")
  some { session_id := session_id, debtor_id := debtor_id,
         last_user_message := last_user_message, intent := intent,
         entities := entities, agent_path := agent_path,
         next_agent := next_agent, understood_message := understood_message,
         crm := crm, reasoning_result := reasoning_result,
         nlu_reasoning := nlu_reasoning, final_response := final_response }

/-- Typed facade save (SessionStore.save): the pydantic model is dumped to
its structured representation and handed to the backend. -/
def SessionStore.save (ss : SessionStore) (now : Nat) (session_id : String)
    (context : ConversationContext) : Bool × SessionStore :=
  ss.saveData now session_id context.model_dump

/-- Typed facade load (SessionStore.load with the ConversationContext
class): validation failure falls back to returning the raw dict, mirroring
the except branch. -/
def SessionStore.load (ss : SessionStore) (now : Nat) (session_id : String) :
    Option (ConversationContext ⊕ CtxData) × SessionStore :=
  let r := ss.loadData now session_id
  match r.1 with
  | none => (none, r.2)
  | some d =>
    match ConversationContext.model_validate d with
    | some c => (some (.inl c), r.2)
    | none => (some (.inr d), r.2)

section DictLemmas

variable {α : Type}

theorem lookup_map_update (m : List (String × α)) (k : String) (v : α)
    (h : m.any (fun p => p.1 == k) = true) :
    (m.map (fun p => if p.1 == k then (k, v) else p)).lookup k = some v := by
  induction m with
  | nil => simp at h
  | cons p m ih =>
    simp only [List.map_cons]
    by_cases hk : p.1 = k
    · have hb : (p.1 == k) = true := by simp [hk]
      rw [if_pos hb]
      simp [List.lookup]
    · have hb : ¬ ((p.1 == k) = true) := by simp [hk]
      rw [if_neg hb]
      have h' : m.any (fun p => p.1 == k) = true := by
        simp only [List.any_cons, Bool.or_eq_true] at h
        rcases h with h | h
        · exact absurd (by simpa using h) hk
        · exact h
      have hkk : (k == p.1) = false := by simp [Ne.symm hk]
      simp only [List.lookup, hkk]
      exact ih h'

theorem lookup_map_update_ne (m : List (String × α)) (k k' : String) (v : α)
    (h : k' ≠ k) :
    (m.map (fun p => if p.1 == k then (k, v) else p)).lookup k' = m.lookup k' := by
  induction m with
  | nil => rfl
  | cons p m ih =>
    simp only [List.map_cons]
    by_cases hk : p.1 = k
    · have hb : (p.1 == k) = true := by simp [hk]
      rw [if_pos hb]
      have h2 : (k' == k) = false := by simp [h]
      have h3 : (k' == p.1) = false := by simp [hk, h]
      simp only [List.lookup, h2, h3]
      exact ih
    · have hb : ¬ ((p.1 == k) = true) := by simp [hk]
      rw [if_neg hb]
      cases hkk : (k' == p.1) with
      | true => simp only [List.lookup, hkk]
      | false =>
        simp only [List.lookup, hkk]
        exact ih

theorem lookup_of_any_false (m : List (String × α)) (k : String)
    (h : m.any (fun p => p.1 == k) = false) : m.lookup k = none := by
  induction m with
  | nil => rfl
  | cons p m ih =>
    simp only [List.any_cons, Bool.or_eq_false_iff] at h
    have hk : ¬ (p.1 = k) := by simpa using h.1
    have hkk : (k == p.1) = false := by simp [Ne.symm hk]
    simp only [List.lookup, hkk]
    exact ih h.2

theorem lookup_append_right (m : List (String × α)) (k : String) (v : α)
    (h : m.lookup k = none) : (m ++ [(k, v)]).lookup k = some v := by
  induction m with
  | nil => simp [List.lookup]
  | cons p m ih =>
    simp only [List.lookup] at h ⊢
    cases hk : (k == p.1) with
    | true => simp [hk] at h
    | false =>
      simp only [hk] at h ⊢
      simp only [List.cons_append] at *
      exact ih h

theorem lookup_append_ne (m : List (String × α)) (k k' : String) (v : α)
    (h : k' ≠ k) : (m ++ [(k, v)]).lookup k' = m.lookup k' := by
  induction m with
  | nil =>
    have h2 : (k' == k) = false := by simp [h]
    simp [List.lookup, h2]
  | cons p m ih =>
    cases hkk : (k' == p.1) with
    | true => simp only [List.cons_append, List.lookup, hkk]
    | false =>
      simp only [List.cons_append, List.lookup, hkk]
      exact ih

theorem lookup_dictSet_self (m : List (String × α)) (k : String) (v : α) :
    (dictSet m k v).lookup k = some v := by
  unfold dictSet
  cases h : m.any (fun p => p.1 == k) with
  | true => simpa [h] using lookup_map_update m k v h
  | false =>
    simp only [Bool.false_eq_true, if_false]
    exact lookup_append_right m k v (lookup_of_any_false m k h)

theorem lookup_dictSet_ne (m : List (String × α)) (k k' : String) (v : α)
    (h : k' ≠ k) : (dictSet m k v).lookup k' = m.lookup k' := by
  unfold dictSet
  cases ha : m.any (fun p => p.1 == k) with
  | true =>
    simp only [if_true]
    exact lookup_map_update_ne m k k' v h
  | false =>
    simp only [Bool.false_eq_true, if_false]
    exact lookup_append_ne m k k' v h

theorem lookup_dictPop_self (m : List (String × α)) (k : String) :
    (dictPop m k).lookup k = none := by
  induction m with
  | nil => rfl
  | cons p m ih =>
    unfold dictPop at ih ⊢
    by_cases hk : p.1 = k
    · have hb : (p.1 != k) = false := by simp [bne, hk]
      simpa [List.filter, hb] using ih
    · have h1 : (p.1 != k) = true := by simp [bne, hk]
      have h2 : (k == p.1) = false := by simp [Ne.symm hk]
      simp only [List.filter, h1, List.lookup, h2]
      exact ih

end DictLemmas

section RoundTrip

theorem decodeOptRat_encode (x : Option Rat) :
    decodeOptRatField (some (encodeOptRat x)) = some x := by
  cases x <;> rfl

theorem decodeOptStr_encode (x : Option String) :
    decodeOptStrField (some (encodeOptStr x)) = some x := by
  cases x <;> rfl

theorem decodeOptInt_encode (x : Option Int) :
    decodeOptIntField (some (encodeOptInt x)) = some x := by
  cases x with
  | none => rfl
  | some i => simp [encodeOptInt, decodeOptIntField, Rat.den_intCast, Rat.num_intCast]

theorem decodeOptModelField_encode {B : Type} (f : JVal → Option B) (g : B → JVal)
    (hg : ∀ x, ∃ l, g x = JVal.jobj l) (hf : ∀ x, f (g x) = some x) (x : Option B) :
    decodeOptModelField f (some (encodeOptModel g x)) = some x := by
  cases x with
  | none => rfl
  | some v =>
    obtain ⟨l, hl⟩ := hg v
    rw [show encodeOptModel g (some v) = g v from rfl, hl]
    show (f (JVal.jobj l)).map some = some (some v)
    rw [← hl, hf]
    rfl

theorem nluEntities_roundtrip (e : NLUEntities) :
    NLUEntities.model_validate (JVal.jobj e.model_dump) = some e := by
  cases e
  simp [NLUEntities.model_dump, NLUEntities.model_validate, List.lookup,
        decodeOptRat_encode, decodeOptStr_encode]

theorem bookRules_roundtrip (b : BookRulesModule) :
    BookRulesModule.model_validate b.model_dump = some b := by
  cases b
  simp [BookRulesModule.model_dump, BookRulesModule.model_validate, List.lookup,
        decodeRatField, decodeIntField, Rat.den_intCast, Rat.num_intCast]

theorem paymentHistoryEntity_roundtrip (p : PaymentHistoryEntity) :
    PaymentHistoryEntity.model_validate p.model_dump = some p := by
  cases p
  simp [PaymentHistoryEntity.model_dump, PaymentHistoryEntity.model_validate,
        List.lookup, decodeRatField, decodeStrField]

theorem paymentHistoryEntity_list_roundtrip (l : List PaymentHistoryEntity) :
    validateList PaymentHistoryEntity.model_validate
      (l.map PaymentHistoryEntity.model_dump) = some l := by
  induction l with
  | nil => rfl
  | cons p l ih => simp [validateList, paymentHistoryEntity_roundtrip, ih]

theorem paymentHistory_roundtrip (p : PaymentHistoryModule) :
    PaymentHistoryModule.model_validate p.model_dump = some p := by
  cases p
  simp [PaymentHistoryModule.model_dump, PaymentHistoryModule.model_validate,
        List.lookup, decodeBoolField, decodeOptStr_encode,
        paymentHistoryEntity_list_roundtrip]

theorem excalibur_roundtrip (e : ExcaliburContext) :
    ExcaliburContext.model_validate e.model_dump = some e := by
  cases e with
  | mk a b c s br ph =>
    simp [ExcaliburContext.model_dump, ExcaliburContext.model_validate,
          List.lookup, decodeStrField, decodeRatField,
          bookRules_roundtrip, paymentHistory_roundtrip]

theorem arrangement_roundtrip (a : ArrangementReasoning) :
    ArrangementReasoning.model_validate a.model_dump = some a := by
  cases a
  simp [ArrangementReasoning.model_dump, ArrangementReasoning.model_validate,
        List.lookup, decodeBoolField, decodeOptRat_encode, decodeOptInt_encode,
        decodeOptStr_encode]

theorem settlement_roundtrip (s : SettlementReasoning) :
    SettlementReasoning.model_validate s.model_dump = some s := by
  cases s
  simp [SettlementReasoning.model_dump, SettlementReasoning.model_validate,
        List.lookup, decodeBoolField, decodeOptRat_encode, decodeOptStr_encode]

theorem reasoning_roundtrip (r : ReasoningResult) :
    ReasoningResult.model_validate r.model_dump = some r := by
  cases r with
  | mk a s su =>
    have ha := decodeOptModelField_encode ArrangementReasoning.model_validate
      ArrangementReasoning.model_dump (fun x => ⟨_, rfl⟩) arrangement_roundtrip a
    have hs := decodeOptModelField_encode SettlementReasoning.model_validate
      SettlementReasoning.model_dump (fun x => ⟨_, rfl⟩) settlement_roundtrip s
    simp [ReasoningResult.model_dump, ReasoningResult.model_validate,
          List.lookup, decodeOptStr_encode, ha, hs]

theorem agentPath_roundtrip (l : List String) :
    validateList decodeStrItem (l.map JVal.jstr) = some l := by
  induction l with
  | nil => rfl
  | cons s l ih => simp [validateList, decodeStrItem, ih]

theorem conversationContext_roundtrip (c : ConversationContext) :
    ConversationContext.model_validate c.model_dump = some c := by
  cases c with
  | mk sid did lum intent ents path na um crm rr nr fr =>
    have hintent : IntentType.ofLabel intent.toLabel = some intent := by
      cases intent <;> rfl
    have hcrm := decodeOptModelField_encode ExcaliburContext.model_validate
      ExcaliburContext.model_dump (fun x => ⟨_, rfl⟩) excalibur_roundtrip crm
    have hrr := decodeOptModelField_encode ReasoningResult.model_validate
      ReasoningResult.model_dump (fun x => ⟨_, rfl⟩) reasoning_roundtrip rr
    simp [ConversationContext.model_dump, ConversationContext.model_validate,
          List.lookup, decodeStrField, decodeOptStr_encode, hintent,
          nluEntities_roundtrip, agentPath_roundtrip, decodeBoolFieldD,
          hcrm, hrr]

end RoundTrip

/-- Declared field names of ConversationContext
(src/schemas/context.py lines 108-128), in declaration order. -/
def conversationContextFields : List String :=
  ["session_id", "debtor_id", "last_user_message", "intent", "entities",
   "agent_path", "next_agent", "understood_message", "crm",
   "reasoning_result", "nlu_reasoning", "final_response"]

/-- Context attributes the pipeline reads and writes that are not in the
declared model. -/
def dynamicContextFields : List String :=
  ["awaiting_input", "id_number", "email_address", "matter_details",
   "proposed_amount"]

/-- Top-level names defined by src/schemas/context.py. -/
def schemasContextExports : List String :=
  ["IntentType", "NLUEntities", "NLUResult", "IncomingMessage",
   "BookRulesModule", "PaymentHistoryEntity", "PaymentHistoryModule",
   "ExcaliburAccount", "ExcaliburContext", "ArrangementReasoning",
   "SettlementReasoning", "ReasoningResult", "ConversationContext",
   "OrchestrationRequest", "OrchestrationResponse", "AgentResponse",
   "NLUAgentResponse", "InteractionRequest", "AccountSnapshot",
   "InteractionResponse", "Persona", "Objective", "Mandate", "Layout",
   "PomlFramework", "MasterAgentPrompt"]

/-- Names src/agents/data_agent.py imports from schemas.context (line 9). -/
def dataAgentContextImports : List String :=
  ["ConversationContext", "MatterDetails"]

/-- Attribute read on the declared pydantic model: a declared field is
readable (its dumped value), any other name raises AttributeError. -/
def ccGetAttr (c : ConversationContext) (name : String) : Except String JVal :=
  match c.model_dump.lookup name with
  | some v => Except.ok v
  | none => Except.error ("AttributeError: " ++ name)

/-- BalanceHandler.handle evaluated over the declared data model: its first
statement reads context.id_number, and the then-branch would assign
context.awaiting_input, which pydantic rejects on a model with no such
field. -/
def balanceHandlerDeclared (c : ConversationContext) :
    Except String ConversationContext := do
  let idn ← ccGetAttr c "id_number"
  if !(jTruthy idn) then
    Except.error "ValueError: ConversationContext object has no field awaiting_input"
  else
    Except.ok { c with next_agent := some "DataAgent" }

section Claims

/-- Matter details with the minimum payment of claim C1. -/
def c1Matter : MatterDetails :=
  { matter_id := "M-1001", status := "Active", outstanding_balance := 5000,
    capital_amount := 4000, minimum_payment := 300, client_name := "Creditor",
    debtor_name := "Jane Doe" }

/-- Conversation context of claim C1: intent setup_payment_plan, a proposed
amount of 250 with monthly frequency, a verified id number, and fetched
account data with minimum_payment 300. -/
def c1Context : DynCtx :=
  { session_id := "s1", debtor_id := "d1",
    last_user_message := some "I want to pay R250 monthly",
    intent := "setup_payment_plan",
    entities := { amount := some 250, frequency := some "monthly" },
    id_number := some "9001015009087",
    matter_details := some c1Matter }

/-- Context of claim C1 with the proposed amount equal to the minimum. -/
def c1ContextEq : DynCtx :=
  { c1Context with entities := { amount := some 300, frequency := some "monthly" } }

/-- C1: the claim as stated is false on the code. Routing a context with
intent setup_payment_plan, proposed amount 250, id number on file and
matter details with minimum_payment 300 dispatches to PaymentPlanHandler
(the table entry for setup_payment_plan), which defers to the data agent:
awaiting_input is not set to approval_choice and proposed_amount is not
stored. -/
theorem c1_counterexample :
    (route c1Context).awaiting_input = none ∧
    (route c1Context).proposed_amount = none ∧
    (route c1Context).next_agent = some "DataAgent" := by
  refine ⟨rfl, rfl, rfl⟩

/-- C1 (amended): the below-minimum comparison lives in
PaymentPlanSetupHandler.handle, which the routing table never dispatches
to. Invoking that handler on a context with matter details whose
minimum_payment is 300 and a nonzero proposed amount: an amount strictly
below 300 transitions to the approval-pending sub-state (awaiting_input
approval_choice) and stores the proposed amount, while an amount at or
above 300 produces the plan-confirmation prompt; the comparison is a plain
strict less-than, so an amount equal to the minimum is accepted. -/
theorem c1_amended (c : DynCtx) (md : MatterDetails) (amt : Rat)
    (hmd : c.matter_details = some md) (hmin : md.minimum_payment = 300)
    (hamt : c.entities.amount = some amt) (hne : amt ≠ 0) :
    (amt < 300 →
      (paymentPlanSetupHandler c).awaiting_input = some "approval_choice" ∧
      (paymentPlanSetupHandler c).proposed_amount = some amt) ∧
    (300 ≤ amt →
      (paymentPlanSetupHandler c).awaiting_input = some "plan_confirmation") := by
  unfold paymentPlanSetupHandler
  simp only [hmd, hamt, optRatTruthy, hmin]
  constructor
  · intro hlt
    simp [hne, hlt]
  · intro hge
    simp [hne, not_lt.mpr hge]

/-- C1 witness: the amended theorem applied at the concrete contexts with
proposed amounts 250 (below minimum) and 300 (equal to minimum). -/
theorem c1_amended_witness :
    ((paymentPlanSetupHandler c1Context).awaiting_input = some "approval_choice" ∧
     (paymentPlanSetupHandler c1Context).proposed_amount = some 250) ∧
    (paymentPlanSetupHandler c1ContextEq).awaiting_input = some "plan_confirmation" :=
  ⟨(c1_amended c1Context c1Matter 250 rfl rfl rfl (by norm_num)).1 (by norm_num),
   (c1_amended c1ContextEq c1Matter 300 rfl rfl rfl (by norm_num)).2 (by norm_num)⟩

/-- C2: for every conversation context with intent get_balance and no
id_number, routing sets awaiting_input to id_number, emits the verification
request as the final response, clears next_agent, and the flow's data-fetch
guard is false on the routed context, so the account-data fetch stage is
not invoked that turn. -/
theorem c2_balance_requires_id (c : DynCtx)
    (hintent : c.intent = "get_balance") (hid : c.id_number = none) :
    (route c).awaiting_input = some "id_number" ∧
    (route c).final_response = some balanceVerificationMessage ∧
    (route c).next_agent = none ∧
    dataFetchGuard (route c) = false := by
  unfold route
  rw [hintent]
  have hie : "get_balance".isEmpty = false := rfl
  by_cases hm : "IntentRouter" ∈ c.agent_path <;>
    simp [hm, hie, getHandler, HANDLERS, List.lookup, balanceHandler, optStrTruthy,
          hid, dataFetchGuard]

/-- Concrete context of the C2 witness. -/
def c2Context : DynCtx :=
  { session_id := "s2", debtor_id := "d2",
    last_user_message := some "what is my balance",
    intent := "get_balance" }

/-- C2 witness: the theorem applied at a concrete get_balance context with
no id number. -/
theorem c2_witness :
    (route c2Context).awaiting_input = some "id_number" ∧
    (route c2Context).final_response = some balanceVerificationMessage ∧
    (route c2Context).next_agent = none ∧
    dataFetchGuard (route c2Context) = false :=
  c2_balance_requires_id c2Context rfl rfl

/-- C3: the declared ConversationContext consists of exactly the twelve
listed fields (its model dump's keys are exactly that list); none of the
five dynamically used attributes is among them; schemas.context defines no
MatterDetails although the data agent imports one from it; and evaluating
the balance handler over the declared data model fails with an attribute
error on its very first read instead of returning an updated context. -/
theorem c3_declared_model_gap :
    ((∀ c : ConversationContext, c.model_dump.map Prod.fst = conversationContextFields) ∧
     (∀ f ∈ dynamicContextFields, f ∉ conversationContextFields)) ∧
    ("MatterDetails" ∉ schemasContextExports ∧
     "MatterDetails" ∈ dataAgentContextImports) ∧
    (∀ c : ConversationContext,
      balanceHandlerDeclared c = Except.error "AttributeError: id_number") := by
  refine ⟨⟨fun c => rfl, by decide⟩, ⟨by decide, by decide⟩, fun c => ?_⟩
  unfold balanceHandlerDeclared ccGetAttr
  simp [ConversationContext.model_dump, List.lookup, Bind.bind, Except.bind]

/-- C3 witness: the theorem applied at a concrete context and a concrete
dynamic field name. -/
theorem c3_witness :
    balanceHandlerDeclared { session_id := "s3", debtor_id := "d3" }
      = Except.error "AttributeError: id_number" ∧
    "id_number" ∉ conversationContextFields :=
  ⟨c3_declared_model_gap.2.2 { session_id := "s3", debtor_id := "d3" },
   c3_declared_model_gap.1.2 "id_number" (by decide)⟩

/-- C4: on both backends, a save and a successful load reset the session's
remaining TTL to the full configured window: the TTL reported immediately
after the access equals the configured ttl_seconds, whatever the previous
timestamp was. The loaded value being nonempty reflects that stored values
are model dumps, which always carry the twelve declared keys. -/
theorem c4_sliding_ttl (ttl now : Nat) (sid : String) (data : CtxData)
    (httl : 0 < ttl) (s : InMemorySessionStore) (hsttl : s.ttl = ttl)
    (st : RedisState) :
    (SessionStore.get_ttl
      { ttl := ttl, backend := .inMemory (s.save_context now sid data).2 } now sid
      = ttl) ∧
    (∀ d, (s.load_context now sid).1 = some d → d ≠ [] →
      SessionStore.get_ttl
        { ttl := ttl, backend := .inMemory (s.load_context now sid).2 } now sid
        = ttl) ∧
    (SessionStore.get_ttl
      { ttl := ttl, backend := .redis (redisSaveContext st now ttl sid data).2 } now sid
      = ttl) ∧
    (∀ d, (redisLoadContext st now ttl sid).1 = some d →
      SessionStore.get_ttl
        { ttl := ttl, backend := .redis (redisLoadContext st now ttl sid).2 } now sid
        = ttl) := by
  refine ⟨?_, ?_, ?_, ?_⟩
  · unfold SessionStore.get_ttl InMemorySessionStore.save_context
    simp only [lookup_dictSet_self]
    have hct : (s.cleanupExpired now).ttl = s.ttl := rfl
    rw [hct, hsttl]
    omega
  · intro d hload hne
    unfold InMemorySessionStore.load_context at hload ⊢
    cases hexp : s.isExpired now sid with
    | true => simp [hexp] at hload
    | false =>
      simp only [hexp, Bool.false_eq_true, if_false] at hload ⊢
      cases hl : s.store.lookup sid with
      | none => simp [hl] at hload
      | some ctx =>
        simp only [hl] at hload ⊢
        have hne2 : ctx ≠ [] := by
          by_cases hc : ctx = []
          · subst hc
            simp at hload
            exact absurd hload.symm hne
          · exact hc
        have hie : ctx.isEmpty = false := by
          cases ctx with
          | nil => exact absurd rfl hne2
          | cons a l => rfl
        simp only [hie, Bool.not_false, if_true]
        unfold SessionStore.get_ttl
        simp only [lookup_dictSet_self]
        rw [hsttl]
        omega
  · unfold SessionStore.get_ttl redisSaveContext RedisState.setex RedisState.ttlOf
    simp only [lookup_dictSet_self]
    have hlt : now < now + ttl := by omega
    simp only [hlt, if_true]
    omega
  · intro d hload
    unfold redisLoadContext at hload ⊢
    cases hg : st.get now (redisKeyOf sid) with
    | none => simp [hg] at hload
    | some v =>
      simp only [hg] at hload ⊢
      unfold RedisState.get at hg
      cases hl : st.kv.lookup (redisKeyOf sid) with
      | none => simp [hl] at hg
      | some pe =>
        obtain ⟨pv, pexp⟩ := pe
        simp only [hl] at hg
        by_cases halive : now < pexp
        · unfold SessionStore.get_ttl RedisState.expire RedisState.ttlOf
          rw [hl]
          simp only [halive, if_true]
          simp only [lookup_dictSet_self]
          have hlt : now < now + ttl := by omega
          simp only [hlt, if_true]
          omega
        · rw [if_neg halive] at hg
          exact absurd hg (by simp)

/-- State of the C4 witness: one session saved at time 0. -/
def c4Store : InMemorySessionStore :=
  { store := [("w4", [("session_id", JVal.jstr "w4")])],
    timestamps := [("w4", 0)], ttl := 3600 }

/-- C4 witness: the theorem applied at concrete stores; its load branch is
discharged at the concrete loaded value. -/
theorem c4_witness :
    SessionStore.get_ttl
      { ttl := 3600,
        backend := .inMemory (c4Store.save_context 100 "w4"
          [("session_id", JVal.jstr "w4")]).2 } 100 "w4" = 3600 ∧
    SessionStore.get_ttl
      { ttl := 3600, backend := .inMemory (c4Store.load_context 100 "w4").2 } 100 "w4"
      = 3600 :=
  ⟨(c4_sliding_ttl 3600 100 "w4" [("session_id", JVal.jstr "w4")] (by norm_num)
      c4Store rfl { kv := [] }).1,
   (c4_sliding_ttl 3600 100 "w4" [("session_id", JVal.jstr "w4")] (by norm_num)
      c4Store rfl { kv := [] }).2.1 [("session_id", JVal.jstr "w4")] rfl (by simp)⟩

/-- C5: a stored session whose most recent access lies strictly more than
ttl seconds in the past is expired: the next load returns None, the next
exists check returns False, and either call removes the entry from both
backing maps. -/
theorem c5_expired_removed (s : InMemorySessionStore) (now t : Nat) (sid : String)
    (d : CtxData) (hstore : s.store.lookup sid = some d)
    (ht : s.timestamps.lookup sid = some t) (hexp : now > t + s.ttl) :
    (s.load_context now sid).1 = none ∧
    (s.load_context now sid).2.store.lookup sid = none ∧
    (s.load_context now sid).2.timestamps.lookup sid = none ∧
    (s.sessionExists now sid).1 = false ∧
    (s.sessionExists now sid).2.store.lookup sid = none ∧
    (s.sessionExists now sid).2.timestamps.lookup sid = none := by
  have hexpired : s.isExpired now sid = true := by
    unfold InMemorySessionStore.isExpired
    rw [ht]
    simp only [decide_eq_true_eq]
    omega
  have hnotnone : (s.store.lookup sid).isNone = false := by
    rw [hstore]; rfl
  unfold InMemorySessionStore.load_context InMemorySessionStore.sessionExists
    InMemorySessionStore.delete_context
  simp [hexpired, hnotnone, lookup_dictPop_self]

/-- State of the C5 witness: one session last accessed at time 0 with a one
hour ttl, probed at time 3601. -/
def c5Store : InMemorySessionStore :=
  { store := [("w5", [("session_id", JVal.jstr "w5")])],
    timestamps := [("w5", 0)], ttl := 3600 }

/-- C5 witness: the theorem applied at the concrete expired store. -/
theorem c5_witness :
    (c5Store.load_context 3601 "w5").1 = none ∧
    (c5Store.sessionExists 3601 "w5").1 = false :=
  ⟨(c5_expired_removed c5Store 3601 0 "w5" [("session_id", JVal.jstr "w5")]
      rfl rfl (by norm_num [c5Store])).1,
   (c5_expired_removed c5Store 3601 0 "w5" [("session_id", JVal.jstr "w5")]
      rfl rfl (by norm_num [c5Store])).2.2.2.1⟩

/-- C6: on either backend, saving a conversation context and loading it
back within the TTL window yields a context equal to the original in every
field, including the nested entities, CRM account data and reasoning
results: the dump/validate round trip through the store's structured
representation is lossless. -/
theorem c6_save_load_roundtrip (c : ConversationContext) (now now₂ : Nat)
    (sid : String) (ss : SessionStore)
    (hwf : match ss.backend with | .inMemory s => s.ttl = ss.ttl | .redis _ => True)
    (hfresh : now₂ < now + ss.ttl) :
    (((ss.save now sid c).2.load now₂ sid).1 = some (Sum.inl c)) := by
  cases hb : ss.backend with
  | inMemory s =>
    rw [hb] at hwf
    unfold SessionStore.save SessionStore.saveData
    rw [hb]
    unfold SessionStore.load SessionStore.loadData
    simp only
    unfold InMemorySessionStore.save_context InMemorySessionStore.load_context
    have hts : (dictSet (s.cleanupExpired now).timestamps sid now).lookup sid
        = some now := lookup_dictSet_self _ _ _
    have hexp : InMemorySessionStore.isExpired
        { s.cleanupExpired now with
          store := dictSet (s.cleanupExpired now).store sid c.model_dump,
          timestamps := dictSet (s.cleanupExpired now).timestamps sid now } now₂ sid
        = false := by
      unfold InMemorySessionStore.isExpired
      simp only [InMemorySessionStore.cleanupExpired] at hts ⊢
      rw [hts]
      simp only [decide_eq_false_iff_not]
      omega
    simp only [hexp, Bool.false_eq_true, if_false]
    have hst : (dictSet (s.cleanupExpired now).store sid c.model_dump).lookup sid
        = some c.model_dump := lookup_dictSet_self _ _ _
    simp only [InMemorySessionStore.cleanupExpired] at hst ⊢
    rw [hst]
    have hne : (ConversationContext.model_dump c).isEmpty = false := by
      unfold ConversationContext.model_dump
      rfl
    simp only [hne, Bool.not_false, if_true]
    simp [conversationContext_roundtrip]
  | redis st =>
    unfold SessionStore.save SessionStore.saveData
    rw [hb]
    unfold SessionStore.load SessionStore.loadData
    simp only
    unfold redisSaveContext redisLoadContext RedisState.setex RedisState.get
    simp only [lookup_dictSet_self]
    have halive : now₂ < now + ss.ttl := hfresh
    simp only [halive, if_true]
    simp [conversationContext_roundtrip]

/-- Context of the C6 witness, exercising every nested sub-object. -/
def c6Context : ConversationContext :=
  { session_id := "w6", debtor_id := "debtor-6",
    last_user_message := some "I want to pay R500 per month",
    intent := .setup_payment_plan,
    entities := { amount := some 500, currency := some "ZAR",
                  frequency := some "monthly",
                  raw := [("source", JVal.jstr "nlu")] },
    agent_path := ["Master Agent", "NLUAgent"],
    next_agent := some "DataAgent",
    understood_message := true,
    crm := some { account_id := "ACC-6", balance := 4200, currency := "ZAR",
                  status := "active",
                  book_rules := { global_minimum_installment := 300,
                                  max_term_months := 24,
                                  settlement_approval_threshold := 3/20 },
                  payment_history := { has_broken_arrangements := false,
                                       last_arrangement_status := some "paid",
                                       recent_payments :=
                                         [{ amount := 250, date := "2025-09-01",
                                            status := "success" }] } },
    reasoning_result := some { arrangement := some
                                 { meets_minimum_installment := true,
                                   proposed_installment_amount := some 500,
                                   term_months := some 12,
                                   requires_human_review := false,
                                   reason := some "ok" },
                               settlement := none,
                               summary := some "plan request" },
    nlu_reasoning := some "amount and frequency found",
    final_response := none }

/-- C6 witness: the theorem applied to the concrete nested context on an
empty in-memory store. -/
theorem c6_witness :
    ((SessionStore.load
        ((SessionStore.save { ttl := 3600, backend := .inMemory {} } 5 "w6"
          c6Context).2) 6 "w6").1 = some (Sum.inl c6Context)) :=
  c6_save_load_roundtrip c6Context 5 6 "w6"
    { ttl := 3600, backend := .inMemory {} } rfl (by norm_num)

theorem mem_snd_of_lookup_eq_some {α : Type} {m : List (String × α)} {k : String}
    {v : α} (h : m.lookup k = some v) : v ∈ m.map Prod.snd := by
  induction m with
  | nil => simp [List.lookup] at h
  | cons p m ih =>
    simp only [List.lookup] at h
    cases hk : (k == p.1) with
    | true =>
      rw [hk] at h
      simp only [List.map_cons, List.mem_cons]
      left
      simpa using h.symm
    | false =>
      rw [hk] at h
      simp only [List.map_cons, List.mem_cons]
      right
      exact ih h

theorem balanceHandler_path (c : DynCtx) :
    (balanceHandler c).agent_path = c.agent_path := by
  unfold balanceHandler; split <;> rfl

theorem paymentPlanHandler_path (c : DynCtx) :
    (paymentPlanHandler c).agent_path = c.agent_path := by
  simp only [paymentPlanHandler]
  split <;> first
    | rfl
    | (split <;> rfl)

/-- Every handler registered in the routing table leaves agent_path
untouched (the one handler that appends to it, PaymentPlanSetupHandler, is
not registered). -/
theorem tableHandler_path (intent : String) (c : DynCtx) :
    (getHandler intent c).agent_path = c.agent_path := by
  unfold getHandler
  cases hl : HANDLERS.lookup intent with
  | none => rfl
  | some h =>
    simp only [Option.getD_some]
    have hmem : h ∈ HANDLERS.map Prod.snd := mem_snd_of_lookup_eq_some hl
    simp only [HANDLERS, List.map_cons, List.map_nil, List.mem_cons,
               List.not_mem_nil, or_false] at hmem
    rcases hmem with rfl | rfl | rfl | rfl | rfl | rfl | rfl | rfl | rfl | rfl |
      rfl | rfl | rfl | rfl | rfl | rfl <;>
      first
        | rfl
        | exact balanceHandler_path c
        | exact paymentPlanHandler_path c

/-- Concrete master output of the C7 counterexample. -/
def c7Result : MasterIntentOutput :=
  { intent := .get_balance, reasoning := some "balance request" }

/-- Concrete context of the C7 counterexample. -/
def c7Context : DynCtx :=
  { session_id := "s7", debtor_id := "d7",
    last_user_message := some "balance please" }

/-- C7: the claim as stated is false on the code. MasterAgent.run appends
its stage name without a presence check, so running it on a context that
already carries the name (as happens on the second turn of a session, the
trail being persisted) yields a duplicate; likewise the orchestrator's
final Orchestrator marker is appended unconditionally every turn. -/
theorem c7_counterexample :
    (masterRun c7Result (masterRun c7Result c7Context)).agent_path
        = ["Master Agent", "Master Agent"] ∧
    (masterRun c7Result (masterRun c7Result c7Context)).agent_path.count
        "Master Agent" = 2 :=
  ⟨rfl, rfl⟩

/-- C7 (amended): the stages that guard with a presence check (NLU agent,
data agent, email agent, response agent, and the router's IntentRouter
marker) add their name at most once, so for those names the trail stays
duplicate-free; but MasterAgent.run appends Master Agent unconditionally,
incrementing its count on every run. -/
theorem c7_amended (c : DynCtx) (nr : NLUResult) (dr : DataAgentResult)
    (er : EmailResult) (rr : Option ResponseOutput) (mr : MasterIntentOutput)
    (hn : c.agent_path.count "NLUAgent" ≤ 1)
    (hd : c.agent_path.count "DataAgent" ≤ 1)
    (he : c.agent_path.count "EmailAgent" ≤ 1)
    (hr : c.agent_path.count "ResponseAgent" ≤ 1)
    (hi : c.agent_path.count "IntentRouter" ≤ 1) :
    ((nluRun nr c).agent_path.count "NLUAgent" ≤ 1) ∧
    ((dataAgentUpdate dr c).agent_path.count "DataAgent" ≤ 1) ∧
    ((emailAgentRun er c).agent_path.count "EmailAgent" ≤ 1) ∧
    ((responseAgentRun rr c).agent_path.count "ResponseAgent" ≤ 1) ∧
    ((route c).agent_path.count "IntentRouter" ≤ 1) ∧
    ((masterRun mr c).agent_path.count "Master Agent"
      = c.agent_path.count "Master Agent" + 1) := by
  refine ⟨?_, ?_, ?_, ?_, ?_, ?_⟩
  · unfold nluRun
    by_cases hmsg : optStrTruthy c.last_user_message
    · by_cases hmem : "NLUAgent" ∈ c.agent_path
      · simp [hmsg, hmem]
        split <;> simpa [hmem] using hn
      · simp [hmsg, hmem]
        split <;>
          simp [hmem, List.count_append, List.count_eq_zero.mpr hmem]
    · simp [hmsg]
      exact hn
  · unfold dataAgentUpdate
    by_cases hmem : "DataAgent" ∈ c.agent_path
    · simp only [hmem, if_true]
      split <;> split <;> simpa using hd
    · simp only [hmem, if_false]
      split <;> split <;>
        simp [List.count_append, List.count_eq_zero.mpr hmem]
  · unfold emailAgentRun
    by_cases hmem : "EmailAgent" ∈ c.agent_path
    · simp only [hmem, if_true]
      split
      · simpa using he
      · split <;> simpa using he
    · simp only [hmem, if_false]
      split
      · simp [List.count_append, List.count_eq_zero.mpr hmem]
      · split <;> simp [List.count_append, List.count_eq_zero.mpr hmem]
  · unfold responseAgentRun
    by_cases hmem : "ResponseAgent" ∈ c.agent_path
    · simp only [hmem, if_true]
      simpa using hr
    · simp only [hmem, if_false]
      simp [List.count_append, List.count_eq_zero.mpr hmem]
  · unfold route
    rw [tableHandler_path]
    by_cases hmem : "IntentRouter" ∈ c.agent_path
    · simpa [hmem] using hi
    · simp [hmem, List.count_append, List.count_eq_zero.mpr hmem]
  · simp only [masterRun]
    split <;> simp [List.count_append]

/-- C7 witness: the amended theorem applied at a concrete context whose
trail already carries each guarded stage name once. -/
theorem c7_amended_witness :
    ((nluRun { entities := {}, reasoning := "r" }
        { session_id := "s7w", debtor_id := "d",
          last_user_message := some "hi",
          agent_path := ["Master Agent", "NLUAgent", "IntentRouter",
                         "DataAgent", "EmailAgent", "ResponseAgent"] }).agent_path.count
      "NLUAgent" ≤ 1) ∧
    ((masterRun { intent := .unknown }
        { session_id := "s7w", debtor_id := "d",
          last_user_message := some "hi",
          agent_path := ["Master Agent", "NLUAgent", "IntentRouter",
                         "DataAgent", "EmailAgent", "ResponseAgent"] }).agent_path.count
      "Master Agent"
      = 2) := by
  have h := c7_amended
    { session_id := "s7w", debtor_id := "d",
      last_user_message := some "hi",
      agent_path := ["Master Agent", "NLUAgent", "IntentRouter",
                     "DataAgent", "EmailAgent", "ResponseAgent"] }
    { entities := {}, reasoning := "r" }
    { success := false } { success := false } none { intent := .unknown }
    (by decide) (by decide) (by decide) (by decide) (by decide)
  exact ⟨h.1, h.2.2.2.2.2⟩

/-- Redis-backed store of the C8 diagnosis: one session whose window has
partially elapsed, 100 seconds of TTL remaining at probe time 0. -/
def c8Redis : SessionStore :=
  { ttl := 3600,
    backend := .redis
      { kv := [("mynah:session:w8",
                ([("session_id", JVal.jstr "w8"), ("debtor_id", JVal.jstr "d8")],
                 100))] } }

/-- C8: on the Redis backend, list_sessions loads every session through the
facade load path, which refreshes the key's TTL: a session with 100 seconds
remaining has the full 3600-second window again after the listing. The
in-memory listing and the statistics calls leave the facade state
untouched (the in-memory stats call only runs the expiry sweep). -/
theorem c8_list_sessions_refreshes_ttl :
    (c8Redis.get_ttl 0 "w8" = 100 ∧
     (c8Redis.list_sessions 0).2.get_ttl 0 "w8" = 3600) ∧
    ((c8Redis.get_stats 0).2 = c8Redis) ∧
    (∀ (t now : Nat) (s : InMemorySessionStore),
      (SessionStore.list_sessions { ttl := t, backend := .inMemory s } now).2
        = { ttl := t, backend := .inMemory s }) := by
  refine ⟨⟨by decide, by decide⟩, rfl, fun t now s => rfl⟩

instance {E A : Type} [DecidableEq E] [DecidableEq A] : DecidableEq (Except E A) := fun
  | .ok a, .ok b =>
    if h : a = b then isTrue (by rw [h]) else isFalse (by simp [h])
  | .ok _, .error _ => isFalse (by simp)
  | .error _, .ok _ => isFalse (by simp)
  | .error e, .error f =>
    if h : e = f then isTrue (by rw [h]) else isFalse (by simp [h])

/-- C9: evaluation of validate_email_address at the specification's probe
inputs: the valid address is accepted and normalized to lowercase, while
both invalid inputs raise the PydanticCustomError coming out of pydantic v2
validate_email — the except clause catches only ValidationError, so no
(False, corrective message) tuple is returned. -/
theorem c9_email_validation :
    validate_email_address "debtor@example.com"
      = Except.ok (true, "debtor@example.com", "") ∧
    validate_email_address "Debtor@Example.COM"
      = Except.ok (true, "debtor@example.com", "") ∧
    validate_email_address "not an email"
      = Except.error (PyExc.pydanticCustomError "value is not a valid email address") ∧
    validate_email_address "a@b"
      = Except.error (PyExc.pydanticCustomError "value is not a valid email address") := by
  refine ⟨by decide, by decide, by decide, by decide⟩

theorem masterRun_mono (r : MasterIntentOutput) (c : DynCtx)
    (h : c.understood_message = true) : (masterRun r c).understood_message = true := by
  simp only [masterRun]
  split <;> simp [h]

theorem nluRun_mono (r : NLUResult) (c : DynCtx)
    (h : c.understood_message = true) : (nluRun r c).understood_message = true := by
  simp only [nluRun]
  split
  · exact h
  · split <;> split <;> simp [h]

theorem dataAgentUpdate_mono (r : DataAgentResult) (c : DynCtx)
    (h : c.understood_message = true) :
    (dataAgentUpdate r c).understood_message = true := by
  simp only [dataAgentUpdate]
  split <;> split <;> first
    | rfl
    | exact h
    | (split <;> first | rfl | exact h)

theorem emailAgentRun_mono (r : EmailResult) (c : DynCtx)
    (h : c.understood_message = true) :
    (emailAgentRun r c).understood_message = true := by
  simp only [emailAgentRun]
  split <;> split <;> first
    | rfl
    | exact h
    | (split <;> first | rfl | exact h)

theorem responseAgentRun_understood (r : Option ResponseOutput) (c : DynCtx) :
    (responseAgentRun r c).understood_message = c.understood_message := by
  simp only [responseAgentRun]
  split <;> rfl

theorem balanceHandler_understood (c : DynCtx) :
    (balanceHandler c).understood_message = c.understood_message := by
  unfold balanceHandler; split <;> rfl

theorem paymentPlanHandler_understood (c : DynCtx) :
    (paymentPlanHandler c).understood_message = c.understood_message := by
  simp only [paymentPlanHandler]
  split <;> first
    | rfl
    | (split <;> rfl)

/-- No handler registered in the routing table writes understood_message. -/
theorem tableHandler_understood (intent : String) (c : DynCtx) :
    (getHandler intent c).understood_message = c.understood_message := by
  unfold getHandler
  cases hl : HANDLERS.lookup intent with
  | none => rfl
  | some h =>
    simp only [Option.getD_some]
    have hmem : h ∈ HANDLERS.map Prod.snd := mem_snd_of_lookup_eq_some hl
    simp only [HANDLERS, List.map_cons, List.map_nil, List.mem_cons,
               List.not_mem_nil, or_false] at hmem
    rcases hmem with rfl | rfl | rfl | rfl | rfl | rfl | rfl | rfl | rfl | rfl |
      rfl | rfl | rfl | rfl | rfl | rfl <;>
      first
        | rfl
        | exact balanceHandler_understood c
        | exact paymentPlanHandler_understood c

theorem route_mono (c : DynCtx) (h : c.understood_message = true) :
    (route c).understood_message = true := by
  simp only [route]
  rw [tableHandler_understood]
  split <;> exact h

theorem turnRouteFetchRespond_mono (o : TurnOracles) (c0 : DynCtx)
    (h : c0.understood_message = true) :
    (turnRouteFetchRespond o c0).understood_message = true := by
  simp only [turnRouteFetchRespond]
  have hr : (route c0).understood_message = true := route_mono c0 h
  generalize route c0 = c1 at hr ⊢
  split
  · have hd : (dataAgentUpdate o.dataResult c1).understood_message = true :=
      dataAgentUpdate_mono _ _ hr
    generalize dataAgentUpdate o.dataResult c1 = c2 at hd ⊢
    split
    · rw [responseAgentRun_understood]; exact hd
    · exact hd
  · split
    · rw [responseAgentRun_understood]; exact hr
    · exact hr

theorem turnNormalFlow_mono (o : TurnOracles) (c0 : DynCtx)
    (h : c0.understood_message = true) :
    (turnNormalFlow o c0).understood_message = true := by
  simp only [turnNormalFlow]
  have h2 : (nluRun o.nluResult (masterRun o.masterResult c0)).understood_message
      = true := nluRun_mono _ _ (masterRun_mono _ _ h)
  generalize nluRun o.nluResult (masterRun o.masterResult c0) = c2 at h2 ⊢
  split
  · exact turnRouteFetchRespond_mono o _ h2
  · exact turnRouteFetchRespond_mono o _ h2

theorem turnEmailStep_mono (o : TurnOracles) (c : DynCtx)
    (h : c.understood_message = true) :
    (turnEmailStep o c).understood_message = true := by
  unfold turnEmailStep
  split
  · exact emailAgentRun_mono _ _ h
  · exact h

theorem turnIdStep_mono (o : TurnOracles) (c : DynCtx)
    (h : c.understood_message = true) :
    (turnIdStep o c).understood_message = true := by
  unfold turnIdStep
  split
  · exact dataAgentUpdate_mono _ _ h
  · exact turnNormalFlow_mono o _ h

/-- The reported status is computed from the final context's
understood_message flag alone. -/
theorem runTurn_status (o : TurnOracles) (req : OrchestrationRequest)
    (existing : Option DynCtx) :
    (runTurn o req existing).2
      = (if (runTurn o req existing).1.understood_message then "completed"
         else "failed") := rfl

/-- C10 (amended): the reported status is completed exactly when the final
context's understood_message flag is true; and because no stage ever clears
the flag and it is persisted with the session, a turn whose incoming
context already carries the flag reports completed even if no stage marks
understanding during that turn. -/
theorem c10_amended (o : TurnOracles) (req : OrchestrationRequest)
    (existing : Option DynCtx) :
    ((runTurn o req existing).2 = "completed"
        ↔ (runTurn o req existing).1.understood_message = true) ∧
    ((match existing with
      | some c => c.understood_message
      | none => false) = true →
      (runTurn o req existing).2 = "completed") := by
  constructor
  · rw [runTurn_status]
    cases h : (runTurn o req existing).1.understood_message <;> simp [h]
  · intro h
    rw [runTurn_status]
    suffices hu : (runTurn o req existing).1.understood_message = true by
      simp [hu]
    cases existing with
    | none => simp at h
    | some c0 =>
      simp only at h
      show (turnIdStep o (turnEmailStep o
        (turnResolveContext req (some c0)))).understood_message = true
      apply turnIdStep_mono
      apply turnEmailStep_mono
      exact h

/-- Oracles of the C10 counterexample: the classifier returns unknown and
the extractor finds nothing, so no stage marks understanding during the
turn. -/
def c10Oracles : TurnOracles :=
  { masterResult := { intent := .unknown, reasoning := some "unclear" },
    nluResult := { entities := {}, reasoning := "nothing extracted" },
    dataResult := { success := false, error_message := some "lookup failed" },
    emailResult := { success := false, error_message := some "send failed" },
    responseResult := none }

/-- Request of the C10 counterexample. -/
def c10Request : OrchestrationRequest :=
  { message := "hmm", debtor_id := "d10", session_id := "s10" }

/-- Loaded context of the C10 counterexample: a previous turn left the
understood_message flag set. -/
def c10Prior : DynCtx :=
  { session_id := "s10", debtor_id := "d10", understood_message := true }

/-- Same incoming context with the flag clear. -/
def c10PriorFalse : DynCtx :=
  { c10Prior with understood_message := false }

/-- C10 witness: the amended theorem applied at the concrete turn whose
incoming context carries the persisted flag. -/
theorem c10_amended_witness :
    (runTurn c10Oracles c10Request (some c10Prior)).2 = "completed" :=
  (c10_amended c10Oracles c10Request (some c10Prior)).2 rfl

/-- C10: the claim as stated is false on the code. Two turns with identical
stage behaviour (unknown intent, no entities, no fetch) differ only in the
persisted flag of the loaded context: the run from the flag-set context
reports completed although no stage set understood_message during the turn
(as the flag-clear twin run shows), where the claim requires failed. -/
theorem c10_counterexample :
    (runTurn c10Oracles c10Request (some c10Prior)).2 = "completed" ∧
    (runTurn c10Oracles c10Request (some c10PriorFalse)).2 = "failed" ∧
    (runTurn c10Oracles c10Request (some c10PriorFalse)).1.understood_message
      = false := by
  refine ⟨by decide, by decide, by decide⟩

end Claims

end Mynah
